import Mathlib

/-!
Shallow embedding of the AI-OPS backend core (nodeManager.js, incidentManager.js)
and a spec-modelled Decision Engine, with theorems settling the specification
claims about heartbeat tracking, payload validation, connection liveness,
incident tracking and decision shape.

JavaScript numbers that hold epoch milliseconds are modelled as Nat, heartbeat
sequence numbers as Int (agents may send arbitrary numeric values), and metric
percentages / health scores as Rat.  JavaScript objects keyed by node id are
modelled as association lists with first-match lookup and in-place update.
-/

namespace AIOps

/-! ### Association-list store (models JS object keyed by node_id) -/

/-- First-match lookup in an association list (JS property read). -/
def getKey {α : Type} : List (String × α) → String → Option α
  | [], _ => none
  | (k, v) :: rest, k' => if k = k' then some v else getKey rest k'

/-- Update-or-append in an association list (JS property assignment:
replaces the value when the key exists, appends a new key otherwise). -/
def setKey {α : Type} : List (String × α) → String → α → List (String × α)
  | [], k, v => [(k, v)]
  | (k0, v0) :: rest, k, v =>
      if k0 = k then (k, v) :: rest else (k0, v0) :: setKey rest k v

/-! ### Constants (nodeManager.js lines 22-29, incidentManager.js lines 12-18) -/

/-- Connection timeout (15 seconds = 3 missed heartbeats at 5s interval). -/
def NODE_TIMEOUT_MS : Nat := 15000

/-- Heartbeat validation window (reject heartbeats older than this). -/
def HEARTBEAT_STALE_MS : Nat := 30000

/-- Maximum allowed metric staleness. -/
def METRIC_STALE_MS : Nat := 60000

/-- Maximum incidents to keep in the timeline. -/
def MAX_INCIDENTS : Nat := 50

/-- Default risk state for new nodes. -/
def DEFAULT_STATE : String := "NORMAL"

/-! ### Payload shapes (nodeManager.js ingress) -/

/-- A cpu/memory sub-object of the metrics payload; the field is none when the
JS object lacks the sub-object or its usage_percent is not a number. -/
structure UsageStats where
  usage_percent : Option ℚ
  deriving DecidableEq

/-- The metrics object of an agent payload.  timestamp is the parsed epoch
value of metrics.timestamp, none when absent (or falsy). -/
structure Metrics where
  cpu : Option UsageStats
  memory : Option UsageStats
  timestamp : Option Nat
  deriving DecidableEq

/-- Heartbeat object of an agent payload ({ sequence, timestamp }); each field
none when absent.  uptime_seconds is never read by the backend and is omitted. -/
structure Heartbeat where
  sequence : Option Int
  timestamp : Option Nat
  deriving DecidableEq

/-- Agent internal state; only health_state is read by the backend. -/
structure AgentState where
  health_state : String
  deriving DecidableEq

/-- Raw agent payload { node_id, hostname, metrics, agent_state, heartbeat }.
Fields are none when absent or of the wrong JS type. -/
structure Payload where
  node_id : Option String
  hostname : Option String
  metrics : Option Metrics
  agent_state : Option AgentState
  heartbeat : Option Heartbeat
  deriving DecidableEq

/-- Result of validateAgentPayload: { valid: true } or { valid: false, error }. -/
inductive Validation where
  | ok : Validation
  | err (reason : String) : Validation
  deriving DecidableEq

/-- validateAgentPayload (nodeManager.js lines 39-77): sequential checks with
early return, mirroring the JS source line by line.  now stands for Date.now(). -/
def validateAgentPayload (now : Nat) (p : Payload) : Validation :=
  match p.node_id with
  | none => .err "Missing or invalid node_id"
  | some nid =>
    if nid = "" then .err "Missing or invalid node_id"
    else match p.metrics with
    | none => .err "Missing or invalid metrics object"
    | some m =>
      match m.cpu.bind UsageStats.usage_percent with
      | none => .err "Invalid metrics.cpu structure"
      | some c =>
        match m.memory.bind UsageStats.usage_percent with
        | none => .err "Invalid metrics.memory structure"
        | some mem =>
          if c < 0 ∨ 100 < c then .err "CPU usage out of range (0-100)"
          else if mem < 0 ∨ 100 < mem then .err "Memory usage out of range (0-100)"
          else match m.timestamp with
          | none => .ok
          | some ts =>
            if METRIC_STALE_MS < now - ts then
              .err "Metrics timestamp too old (stale data rejected)"
            else .ok

/-! ### Heartbeat tracker (nodeManager.js lines 19-20, 85-128) -/

/-- heartbeatTracker entry: { lastSeq, lastTimestamp, missedHeartbeats }. -/
structure Tracker where
  lastSeq : Int
  lastTimestamp : Nat
  missedHeartbeats : Nat
  deriving DecidableEq

/-- The sequence-validation block of processHeartbeat (lines 100-111): when the
heartbeat carries a sequence number, accumulate the forward gap over
expectedSeq = lastSeq + 1 into missedHeartbeats and record lastSeq = actualSeq. -/
def seqUpdate (t : Tracker) (hb : Option Heartbeat) : Tracker :=
  match hb with
  | none => t
  | some h =>
    match h.sequence with
    | none => t
    | some actualSeq =>
      let expectedSeq := t.lastSeq + 1
      { t with
        lastSeq := actualSeq,
        missedHeartbeats :=
          if expectedSeq < actualSeq then
            t.missedHeartbeats + (actualSeq - expectedSeq).toNat
          else t.missedHeartbeats }

/-- Return value of processHeartbeat. -/
structure HBResult where
  valid : Bool
  isNewConnection : Bool
  missedBeats : Nat
  deriving DecidableEq

/-- processHeartbeat (nodeManager.js lines 85-128) on one node's tracker slot.
A fresh node gets a tracker with lastSeq = -1 and returns immediately as a new
connection.  For known nodes the sequence block runs first, then the staleness
check (which, when it rejects, skips only the lastTimestamp refresh). -/
def processHeartbeat (slot : Option Tracker) (hb : Option Heartbeat) (now : Nat) :
    Tracker × HBResult :=
  match slot with
  | none =>
      ({ lastSeq := -1, lastTimestamp := now, missedHeartbeats := 0 },
       { valid := true, isNewConnection := true, missedBeats := 0 })
  | some tracker =>
      let t := seqUpdate tracker hb
      match hb with
      | some h =>
        match h.timestamp with
        | some ts =>
          if HEARTBEAT_STALE_MS < now - ts then
            (t, { valid := false, isNewConnection := false,
                  missedBeats := t.missedHeartbeats })
          else
            ({ t with lastTimestamp := now },
             { valid := true, isNewConnection := false,
               missedBeats := t.missedHeartbeats })
        | none =>
          ({ t with lastTimestamp := now },
           { valid := true, isNewConnection := false,
             missedBeats := t.missedHeartbeats })
      | none =>
        ({ t with lastTimestamp := now },
         { valid := true, isNewConnection := false,
           missedBeats := t.missedHeartbeats })

/-- Run a list of (heartbeat, now) reports through one node's tracker slot. -/
def runReports (slot : Option Tracker) : List (Option Heartbeat × Nat) → Option Tracker
  | [] => slot
  | (hb, now) :: rest => runReports (some (processHeartbeat slot hb now).1) rest

/-- A heartbeat carrying only a sequence number. -/
def seqOnly (s : Int) : Option Heartbeat := some { sequence := some s, timestamp := none }

/-- Process a list of bare sequence numbers through a fresh node's slot. -/
def runSeqs (seqs : List Int) : Option Tracker :=
  runReports none (seqs.map fun s => (seqOnly s, 0))

/-- missedHeartbeats of a tracker slot (0 when no tracker exists yet). -/
def missedOf (slot : Option Tracker) : Nat :=
  (slot.map Tracker.missedHeartbeats).getD 0

/-! ### Incident manager (incidentManager.js) -/

/-- system_health value from the AI collaborator: { health_score, risk_level }. -/
structure SystemHealth where
  health_score : ℚ
  risk_level : String
  deriving DecidableEq

/-- root_cause value from the AI collaborator; only the root_cause label is read
by the incident manager (the contributors map is passed through untouched). -/
structure RootCause where
  root_cause : String
  deriving DecidableEq

/-- Incident record pushed on the timeline.  timestamp holds the epoch value
rendered as an ISO string in the JS source; fromLevel/toLevel are the JS
fields named from/to (Lean keywords). -/
structure Incident where
  node_id : String
  fromLevel : String
  toLevel : String
  timestamp : Nat
  health_score : ℚ
  root_cause : String
  deriving DecidableEq

/-- nodeStates entry: { currentState, lastStateChange }. -/
structure NodeHealthState where
  currentState : String
  lastStateChange : Nat
  deriving DecidableEq

/-- State owned by incidentManager.js: the per-node risk states and the global
incident timeline. -/
structure IncidentState where
  nodeStates : List (String × NodeHealthState)
  timeline : List Incident
  deriving DecidableEq

/-- The empty incident-manager state (module load). -/
def emptyIncidentState : IncidentState := { nodeStates := [], timeline := [] }

/-- The timeline push of updateState (incidentManager.js lines 58-63): append,
then drop the oldest entry when the length exceeds MAX_INCIDENTS. -/
def pushIncident (timeline : List Incident) (i : Incident) : List Incident :=
  let t := timeline ++ [i]
  if MAX_INCIDENTS < t.length then t.tail else t

/-- The root-cause label stored on an incident: rootCause?.root_cause with a
fallback to UNKNOWN when absent or falsy (empty string). -/
def rootCauseLabel (rc : Option RootCause) : String :=
  match rc with
  | none => "UNKNOWN"
  | some r => if r.root_cause = "" then "UNKNOWN" else r.root_cause

/-- updateState (incidentManager.js lines 27-73).  nodeId is typed as a string,
so the legacy object-signature compatibility shim (lines 29-34) is not
reachable and is not modelled.  A missing nodeStates entry is created with
DEFAULT_STATE before the comparison; an incident is returned exactly when the
new risk level differs from the stored one, and the stored level is then set
to the new value. -/
def updateState (st : IncidentState) (now : Nat) (nodeId : String)
    (systemHealth : SystemHealth) (rootCause : Option RootCause) :
    IncidentState × Option Incident :=
  let cur : NodeHealthState :=
    (getKey st.nodeStates nodeId).getD
      { currentState := DEFAULT_STATE, lastStateChange := now }
  let newState := systemHealth.risk_level
  if newState ≠ cur.currentState then
    let incident : Incident :=
      { node_id := nodeId,
        fromLevel := cur.currentState,
        toLevel := newState,
        timestamp := now,
        health_score := systemHealth.health_score,
        root_cause := rootCauseLabel rootCause }
    ({ nodeStates := setKey st.nodeStates nodeId
          { currentState := newState, lastStateChange := now },
       timeline := pushIncident st.timeline incident },
     some incident)
  else
    ({ st with nodeStates := setKey st.nodeStates nodeId cur }, none)

/-- getNodeState (incidentManager.js lines 92-94). -/
def getNodeState (st : IncidentState) (nodeId : String) : String :=
  ((getKey st.nodeStates nodeId).map NodeHealthState.currentState).getD DEFAULT_STATE

/-- One recorded updateState call. -/
structure UpdCall where
  now : Nat
  nodeId : String
  systemHealth : SystemHealth
  rootCause : Option RootCause

/-- Fold a list of updateState calls over an incident-manager state. -/
def applyCalls (st : IncidentState) (cs : List UpdCall) : IncidentState :=
  cs.foldl (fun s c => (updateState s c.now c.nodeId c.systemHealth c.rootCause).1) st

/-- Push a sequence of risk levels for a single node through updateState,
collecting the emitted incidents in order. -/
def runRiskSeq (levels : List String) : IncidentState × List Incident :=
  levels.foldl
    (fun acc l =>
      let r := updateState acc.1 0 "node-1" { health_score := 0, risk_level := l } none
      (r.1, acc.2 ++ r.2.toList))
    (emptyIncidentState, [])

/-! ### Node store (nodeManager.js) -/

/-- Connection state stored on a node record and carried on events. -/
inductive ConnStatus where
  | CONNECTED : ConnStatus
  | DISCONNECTED : ConnStatus
  deriving DecidableEq

/-- Agent status values.  OFFLINE is only ever derived at read/event time,
never stored (processAgentMetrics stores ACTIVE, DEGRADED or RECOVERING). -/
inductive AgentStatus where
  | ACTIVE : AgentStatus
  | DEGRADED : AgentStatus
  | RECOVERING : AgentStatus
  | OFFLINE : AgentStatus
  deriving DecidableEq

/-- Agent status derived from agent_state (nodeManager.js lines 195-202). -/
def agentStatusOf (st : Option AgentState) : AgentStatus :=
  match st with
  | none => .ACTIVE
  | some s =>
    if s.health_state = "DEGRADED" ∨ s.health_state = "DEGRADING" then .DEGRADED
    else if s.health_state = "RECOVERING" then .RECOVERING
    else .ACTIVE

/-- AI collaborator result consumed by processAgentMetrics: system_health and
root_cause are read here; any further fields are passed through opaquely. -/
structure AIResult where
  system_health : SystemHealth
  root_cause : Option RootCause
  deriving DecidableEq

/-- nodeStore entry (nodeManager.js lines 205-218 plus the aiResult attachment
of line 238; the two assignments are composed into the record's final value). -/
structure NodeRec where
  hostname : String
  metrics : Option Metrics
  lastSeen : Nat
  status : ConnStatus
  connection_state : ConnStatus
  agent_status : AgentStatus
  agent_state : Option AgentState
  hbSequence : Int
  hbLastReceived : Nat
  hbMissedBeats : Nat
  aiResult : Option AIResult
  deriving DecidableEq

/-- The payload of a node_status_update event. -/
structure StatusUpdate where
  node_id : String
  status : ConnStatus
  connection_state : ConnStatus
  agent_status : AgentStatus
  lastSeen : Nat
  deriving DecidableEq

/-- Enriched metrics payload emitted as system_metrics (lines 241-251). -/
structure EnrichedMetrics where
  node_id : String
  hostname : String
  connection_state : ConnStatus
  agent_status : AgentStatus
  agent_state : Option AgentState
  aiResult : AIResult
  deriving DecidableEq

/-- Events emitted through the Socket.IO instance. -/
inductive Event where
  | statusUpdate (u : StatusUpdate) : Event
  | systemMetrics (m : EnrichedMetrics) : Event
  | incidentEvent (i : Incident) (connection_state : ConnStatus)
      (agent_status : AgentStatus) : Event
  deriving DecidableEq

/-- Whole backend state: the nodeStore and heartbeatTracker maps of
nodeManager.js plus the incidentManager.js state it calls into. -/
structure SystemState where
  nodeStore : List (String × NodeRec)
  tracker : List (String × Tracker)
  incidents : IncidentState
  deriving DecidableEq

/-- State at module load: all stores empty. -/
def initialState : SystemState :=
  { nodeStore := [], tracker := [], incidents := emptyIncidentState }

/-- The hostname stored on a node record: hostname || node_id. -/
def hostnameOf (hostname : Option String) (nid : String) : String :=
  match hostname with
  | none => nid
  | some h => if h = "" then nid else h

/-- processAgentMetrics (nodeManager.js lines 173-272).  now stands for
Date.now() (the several calls within one invocation are identified); the AI
collaborator response is passed as the parameter aiR (sendMetricsToAIEngine is
an excluded external call).  Returns the new state, the thrown error or the
returned enriched metrics, and the events emitted in order. -/
def processAgentMetrics (st : SystemState) (now : Nat) (p : Payload) (aiR : AIResult) :
    SystemState × Except String EnrichedMetrics × List Event :=
  match validateAgentPayload now p with
  | .err e => (st, .error e, [])
  | .ok =>
    let nid := p.node_id.getD ""
    let hres := processHeartbeat (getKey st.tracker nid) p.heartbeat now
    let st1 : SystemState := { st with tracker := setKey st.tracker nid hres.1 }
    if hres.2.valid = false then
      (st1, .error "Stale heartbeat rejected", [])
    else
      let existing := getKey st.nodeStore nid
      let isNewOrReconnecting :=
        existing = none ∨ existing.map NodeRec.status = some .DISCONNECTED
      let agentStatus := agentStatusOf p.agent_state
      let newRec : NodeRec :=
        { hostname := hostnameOf p.hostname nid,
          metrics := p.metrics,
          lastSeen := now,
          status := .CONNECTED,
          connection_state := .CONNECTED,
          agent_status := agentStatus,
          agent_state := p.agent_state,
          hbSequence := ((p.heartbeat.bind Heartbeat.sequence).getD 0),
          hbLastReceived := now,
          hbMissedBeats := hres.2.missedBeats,
          aiResult := some aiR }
      let connectEvents : List Event :=
        if isNewOrReconnecting then
          [.statusUpdate
            { node_id := nid, status := .CONNECTED, connection_state := .CONNECTED,
              agent_status := agentStatus, lastSeen := now }]
        else []
      let enriched : EnrichedMetrics :=
        { node_id := nid, hostname := newRec.hostname,
          connection_state := .CONNECTED, agent_status := agentStatus,
          agent_state := p.agent_state, aiResult := aiR }
      let upd := updateState st1.incidents now nid aiR.system_health aiR.root_cause
      let incidentEvents : List Event :=
        match upd.2 with
        | some i => [.incidentEvent i .CONNECTED agentStatus]
        | none => []
      ({ nodeStore := setKey st.nodeStore nid newRec,
         tracker := st1.tracker,
         incidents := upd.1 },
       .ok enriched,
       connectEvents ++ [.systemMetrics enriched] ++ incidentEvents)

/-- One node's handling inside the connection-checker sweep (nodeManager.js
lines 141-163): a CONNECTED node whose time since lastSeen has reached the
timeout becomes DISCONNECTED and yields one node_status_update event. -/
def sweepNode (now : Nat) (nid : String) (r : NodeRec) : NodeRec × Option Event :=
  if r.status = .CONNECTED ∧ ¬ (now - r.lastSeen < NODE_TIMEOUT_MS) then
    ({ r with status := .DISCONNECTED, connection_state := .DISCONNECTED },
     some (.statusUpdate
       { node_id := nid, status := .DISCONNECTED, connection_state := .DISCONNECTED,
         agent_status := .OFFLINE, lastSeen := r.lastSeen }))
  else (r, none)

/-- One pass of the 5-second interval body of initConnectionChecker: visit
every nodeStore entry, updating it in place and collecting emitted events. -/
def sweepStore (now : Nat) (store : List (String × NodeRec)) :
    List (String × NodeRec) × List Event :=
  (store.map fun kv => (kv.1, (sweepNode now kv.1 kv.2).1),
   store.filterMap fun kv => (sweepNode now kv.1 kv.2).2)

/-- Row of the getActiveNodes response (nodeManager.js lines 286-299). -/
structure NodeView where
  node_id : String
  hostname : String
  lastSeen : Nat
  timeSinceLastSeen : Nat
  status : ConnStatus
  connection_state : ConnStatus
  agent_status : AgentStatus
  agent_state : Option AgentState
  health_status : String
  deriving DecidableEq

/-- The health_status string of a node row: aiResult?.system_health?.risk_level
with fallback UNKNOWN when absent or falsy. -/
def healthStatusOf (r : NodeRec) : String :=
  match r.aiResult with
  | none => "UNKNOWN"
  | some a => if a.system_health.risk_level = "" then "UNKNOWN" else a.system_health.risk_level

/-- getActiveNodes (nodeManager.js lines 278-303).  The stored agent_status is
an enum in this model, so the defensive || "ACTIVE" fallback of the JS source
(for records predating the field) has no counterpart. -/
def getActiveNodes (now : Nat) (store : List (String × NodeRec)) : List NodeView :=
  store.map fun kv =>
    let isConnected := now - kv.2.lastSeen < NODE_TIMEOUT_MS
    { node_id := kv.1,
      hostname := kv.2.hostname,
      lastSeen := kv.2.lastSeen,
      timeSinceLastSeen := now - kv.2.lastSeen,
      status := if isConnected then .CONNECTED else .DISCONNECTED,
      connection_state := if isConnected then .CONNECTED else .DISCONNECTED,
      agent_status := if isConnected then kv.2.agent_status else .OFFLINE,
      agent_state := kv.2.agent_state,
      health_status := healthStatusOf kv.2 }

/-- Return value of getNodeData: a spread of the stored record with the
connection_state and agent_status fields overridden by derived values. -/
structure NodeDataView where
  stored : NodeRec
  connection_state : ConnStatus
  agent_status : AgentStatus
  deriving DecidableEq

/-- getNodeData (nodeManager.js lines 310-322). -/
def getNodeData (now : Nat) (store : List (String × NodeRec)) (nodeId : String) :
    Option NodeDataView :=
  (getKey store nodeId).map fun data =>
    let isConnected := now - data.lastSeen < NODE_TIMEOUT_MS
    { stored := data,
      connection_state := if isConnected then .CONNECTED else .DISCONNECTED,
      agent_status := if isConnected then data.agent_status else .OFFLINE }

/-! ### Event traces -/

/-- An externally triggered step: an agent report (with the AI collaborator's
response) or one pass of the periodic connection-checker sweep. -/
inductive Ev where
  | report (now : Nat) (p : Payload) (aiR : AIResult) : Ev
  | sweep (now : Nat) : Ev

/-- The wall-clock time of a step. -/
def evTime : Ev → Nat
  | .report now _ _ => now
  | .sweep now => now

/-- Apply one step to the backend state, returning the emitted events. -/
def stepEv (st : SystemState) : Ev → SystemState × List Event
  | .report now p aiR =>
      let r := processAgentMetrics st now p aiR
      (r.1, r.2.2)
  | .sweep now =>
      let r := sweepStore now st.nodeStore
      ({ st with nodeStore := r.1 }, r.2)

/-- Run a trace of steps, accumulating all emitted events in order. -/
def runEvs (st : SystemState) : List Ev → SystemState × List Event
  | [] => (st, [])
  | e :: rest =>
      let r := stepEv st e
      let rr := runEvs r.1 rest
      (rr.1, r.2 ++ rr.2)

/-- The status-update events concerning one node, in emission order. -/
def statusEventsFor (n : String) (evs : List Event) : List Event :=
  evs.filter fun e =>
    match e with
    | .statusUpdate u => u.node_id = n
    | _ => false

/-! ### Validator check predicates (the spec's four checks, for claim C6) -/

/-- Spec check (a): node_id present and a non-empty string. -/
def hasValidNodeId (p : Payload) : Bool :=
  match p.node_id with
  | some s => decide (¬ s = "")
  | none => false

/-- Spec check (b): metrics present with numeric cpu.usage_percent and
memory.usage_percent. -/
def hasNumericMetrics (p : Payload) : Bool :=
  match p.metrics with
  | some m =>
      (m.cpu.bind UsageStats.usage_percent).isSome &&
      (m.memory.bind UsageStats.usage_percent).isSome
  | none => false

/-- Spec check (c): both utilization values within [0, 100] (vacuous when the
shape check (b) does not supply two numbers). -/
def utilizationInRange (p : Payload) : Bool :=
  match p.metrics with
  | some m =>
      match m.cpu.bind UsageStats.usage_percent, m.memory.bind UsageStats.usage_percent with
      | some c, some mem => decide (0 ≤ c ∧ c ≤ 100 ∧ 0 ≤ mem ∧ mem ≤ 100)
      | _, _ => true
  | none => true

/-- Spec check (d): if metrics.timestamp is present, now - timestamp is at most
the 60s staleness bound. -/
def timestampFresh (now : Nat) (p : Payload) : Bool :=
  match p.metrics with
  | some m =>
      match m.timestamp with
      | some ts => decide (now - ts ≤ METRIC_STALE_MS)
      | none => true
  | none => true

/-- Which of the spec's four checks a validation outcome reports as failed. -/
inductive CheckOutcome where
  | pass : CheckOutcome
  | failNodeId : CheckOutcome
  | failMetricsShape : CheckOutcome
  | failRange : CheckOutcome
  | failStaleness : CheckOutcome
  | failOther : CheckOutcome
  deriving DecidableEq

/-- Map a validateAgentPayload result onto the spec's check taxonomy by its
reason string. -/
def classify : Validation → CheckOutcome
  | .ok => .pass
  | .err r =>
    if r = "Missing or invalid node_id" then .failNodeId
    else if r = "Missing or invalid metrics object" ∨ r = "Invalid metrics.cpu structure" ∨
            r = "Invalid metrics.memory structure" then .failMetricsShape
    else if r = "CPU usage out of range (0-100)" ∨ r = "Memory usage out of range (0-100)" then
      .failRange
    else if r = "Metrics timestamp too old (stale data rejected)" then .failStaleness
    else .failOther

/-- The claim's validator contract: evaluate the four checks in order,
first failure wins, pass exactly when all applicable checks pass. -/
def specFirstFailure (now : Nat) (p : Payload) : CheckOutcome :=
  if hasValidNodeId p = false then .failNodeId
  else if hasNumericMetrics p = false then .failMetricsShape
  else if utilizationInRange p = false then .failRange
  else if timestampFresh now p = false then .failStaleness
  else .pass

/-! ### Liveness-trace invariants (for claims C3 and C8) -/

/-- The single node_status_update payload emitted by the sweep for a timed-out
node. -/
def disconnectEvent (nid : String) (r : NodeRec) : Event :=
  .statusUpdate
    { node_id := nid, status := .DISCONNECTED, connection_state := .DISCONNECTED,
      agent_status := .OFFLINE, lastSeen := r.lastSeen }

/-- The single node_status_update payload emitted when a node connects or
reconnects. -/
def connectEvent (nid : String) (agentStatus : AgentStatus) (now : Nat) : Event :=
  .statusUpdate
    { node_id := nid, status := .CONNECTED, connection_state := .CONNECTED,
      agent_status := agentStatus, lastSeen := now }

/-- Keys of a store. -/
def keysOf {α : Type} (l : List (String × α)) : List String := l.map Prod.fst

/-- Liveness invariant at wall-clock time T: every stored node was last seen no
later than T, and a DISCONNECTED node has been unseen for at least the
timeout. -/
def StoreInv (T : Nat) (store : List (String × NodeRec)) : Prop :=
  ∀ n r, getKey store n = some r →
    r.lastSeen ≤ T ∧ (r.status = .DISCONNECTED → r.lastSeen + NODE_TIMEOUT_MS ≤ T)

/-- Stored agent_status is never OFFLINE (OFFLINE is derived at read time). -/
def StoredStatusInv (store : List (String × NodeRec)) : Prop :=
  ∀ kv ∈ store, kv.2.agent_status ≠ AgentStatus.OFFLINE

/-- The time of the last event, or T when there is none. -/
def lastD (T : Nat) (l : List Nat) : Nat := l.foldl (fun _ t => t) T

/-! ### Decision Engine (spec-modelled, for claim C9) -/

/-- Modelled from the spec: decision_agent.py (the DecisionAgent) is not part
of the visible source, only its README and callers are.  Decision kinds are
the five mutually exclusive values of spec section 3. -/
inductive DecisionKind where
  | NO_ACTION : DecisionKind
  | ESCALATE : DecisionKind
  | DE_ESCALATE : DecisionKind
  | PREDICT_FAILURE : DecisionKind
  | AUTO_HEAL : DecisionKind
  deriving DecidableEq

/-- Modelled from the spec: health trend classification of spec section 4.4. -/
inductive HealthTrend where
  | IMPROVING : HealthTrend
  | STABLE : HealthTrend
  | DEGRADING : HealthTrend
  | CRITICAL_DECLINE : HealthTrend
  deriving DecidableEq

/-- Modelled from the spec: one health observation fed to the engine. -/
structure Observation where
  healthScore : ℚ
  riskLevel : String
  anomalyScore : ℚ
  deriving DecidableEq

/-- Modelled from the spec: the engine's tunable configuration (spec section
4.4 says thresholds and weights are deployment-tunable, not recoverable
constants). -/
structure EngineConfig where
  windowCapacity : Nat
  persistenceFloor : Nat
  stableBand : ℚ
  criticalBand : ℚ
  horizon : ℚ
  saturationK : Nat
  wAgreement : ℚ
  wFill : ℚ
  wPersistence : ℚ

/-- Modelled from the spec: the emitted Decision value (spec section 3). -/
structure Decision where
  kind : DecisionKind
  confidence : ℚ
  healthTrend : HealthTrend
  trendVelocity : ℚ
  persistence : Nat
  deriving DecidableEq

/-- Modelled from the spec: FIFO-bounded window push (spec section 4.3). -/
def pushWindow (cfg : EngineConfig) (w : List Observation) (o : Observation) :
    List Observation :=
  let w2 := w ++ [o]
  if cfg.windowCapacity < w2.length then w2.tail else w2

/-- Differences of consecutive values. -/
def consecutiveDiffs : List ℚ → List ℚ
  | [] => []
  | [_] => []
  | a :: b :: rest => (b - a) :: consecutiveDiffs (b :: rest)

/-- Modelled from the spec: trend velocity as a window-wide slope of health
score (mean consecutive difference, not a two-point difference). -/
def windowVelocity (w : List Observation) : ℚ :=
  let ds := consecutiveDiffs (w.map Observation.healthScore)
  if ds.length = 0 then 0 else ds.sum / (ds.length : ℚ)

/-- Modelled from the spec: classify velocity into the four trend bands. -/
def classifyTrend (cfg : EngineConfig) (v : ℚ) : HealthTrend :=
  if v ≤ -cfg.criticalBand then .CRITICAL_DECLINE
  else if v < -cfg.stableBand then .DEGRADING
  else if v ≤ cfg.stableBand then .STABLE
  else .IMPROVING

/-- Modelled from the spec: consecutive most-recent observations sharing the
current risk level. -/
def persistenceOf (w : List Observation) (risk : String) : Nat :=
  (w.reverse.takeWhile fun o => decide (o.riskLevel = risk)).length

/-- Rank of a risk level for escalation comparisons. -/
def riskRank (r : String) : Nat :=
  if r = "CRITICAL" then 2 else if r = "WARNING" then 1 else 0

/-- Did the risk level increase relative to the previous observation? -/
def riskIncreased (prevRisk : Option String) (cur : String) : Bool :=
  match prevRisk with
  | some pr => decide (riskRank pr < riskRank cur)
  | none => false

/-- Did the risk level decrease relative to the previous observation? -/
def riskDecreased (prevRisk : Option String) (cur : String) : Bool :=
  match prevRisk with
  | some pr => decide (riskRank cur < riskRank pr)
  | none => false

/-- Modelled from the spec: agreement between the anomaly score and the
health-score trend, a value in [0, 1]. -/
def agreementScore (anomalyScore velocity : ℚ) : ℚ :=
  if (0 < anomalyScore ∧ velocity < 0) ∨ (anomalyScore ≤ 0 ∧ 0 ≤ velocity) then 1 else 1 / 2

/-- Modelled from the spec: window fill fraction in [0, 1]. -/
def fillFraction (cfg : EngineConfig) (w : List Observation) : ℚ :=
  if cfg.windowCapacity = 0 then 0 else min 1 ((w.length : ℚ) / (cfg.windowCapacity : ℚ))

/-- Modelled from the spec: persistence contribution, saturating below 1. -/
def persistenceFactor (cfg : EngineConfig) (p : Nat) : ℚ :=
  (p : ℚ) / ((p : ℚ) + (cfg.saturationK : ℚ) + 1)

/-- Modelled from the spec: confidence as a weighted combination of agreement,
window fill and saturating persistence. -/
def confidenceOf (cfg : EngineConfig) (agreement fill sat : ℚ) : ℚ :=
  cfg.wAgreement * agreement + cfg.wFill * fill + cfg.wPersistence * sat

/-- Modelled from the spec: the top-down priority ladder of spec section 4.4
step 4 (first match wins). -/
def selectKind (cfg : EngineConfig) (prevRisk : Option String) (o : Observation)
    (trend : HealthTrend) (v : ℚ) (p : Nat) (healEligible healInFlight : Bool) :
    DecisionKind :=
  if o.riskLevel = "CRITICAL" ∧ healEligible = true ∧ healInFlight = false then .AUTO_HEAL
  else if (trend = .CRITICAL_DECLINE ∨ (trend = .DEGRADING ∧ cfg.persistenceFloor < p)) ∧
          v < 0 ∧ o.healthScore / (-v) ≤ cfg.horizon then .PREDICT_FAILURE
  else if riskIncreased prevRisk o.riskLevel = true ∨
          ((o.riskLevel = "WARNING" ∨ o.riskLevel = "CRITICAL") ∧ cfg.persistenceFloor < p) then
    .ESCALATE
  else if riskDecreased prevRisk o.riskLevel = true ∧
          (trend = .IMPROVING ∨ trend = .STABLE) then .DE_ESCALATE
  else .NO_ACTION

/-- Modelled from the spec: one evaluation cycle of the Decision Engine
(spec section 4.4): push the observation, compute trend, persistence and the
priority-ladder kind, and emit exactly one Decision with its confidence. -/
def evaluateCycle (cfg : EngineConfig) (window : List Observation) (o : Observation)
    (healEligible healInFlight : Bool) : Decision × List Observation :=
  let w := pushWindow cfg window o
  let v := windowVelocity w
  let trend := classifyTrend cfg v
  let p := persistenceOf w o.riskLevel
  let prevRisk := window.getLast?.map Observation.riskLevel
  ({ kind := selectKind cfg prevRisk o trend v p healEligible healInFlight,
     confidence := confidenceOf cfg (agreementScore o.anomalyScore v) (fillFraction cfg w)
       (persistenceFactor cfg p),
     healthTrend := trend,
     trendVelocity := v,
     persistence := p }, w)

/-! ### Concrete data used by witnesses and counterexamples -/

/-- A payload that passes validation and carries a forward sequence gap with a
stale heartbeat timestamp. -/
def stalePayload : Payload :=
  { node_id := some "n1", hostname := none,
    metrics := some { cpu := some { usage_percent := some 10 },
                      memory := some { usage_percent := some 10 }, timestamp := none },
    agent_state := none,
    heartbeat := some { sequence := some 2, timestamp := some 0 } }

/-- A backend state in which node n1 has an existing tracker at sequence 0. -/
def staleState : SystemState :=
  { nodeStore := [],
    tracker := [("n1", { lastSeq := 0, lastTimestamp := 0, missedHeartbeats := 0 })],
    incidents := emptyIncidentState }

/-- A benign AI collaborator response. -/
def normalAi : AIResult :=
  { system_health := { health_score := 0, risk_level := "NORMAL" }, root_cause := none }

/-- An invalid payload (missing node_id). -/
def invalidPayload : Payload :=
  { node_id := none, hostname := none, metrics := none, agent_state := none, heartbeat := none }

/-- A payload that passes validation with no heartbeat at all. -/
def freshPayload : Payload :=
  { node_id := some "n1", hostname := none,
    metrics := some { cpu := some { usage_percent := some 10 },
                      memory := some { usage_percent := some 10 }, timestamp := none },
    agent_state := none, heartbeat := none }

/-- A timeline filled to exactly MAX_INCIDENTS entries. -/
def fullTimeline : List Incident :=
  (List.range MAX_INCIDENTS).map fun k =>
    { node_id := "n", fromLevel := "NORMAL", toLevel := "WARNING", timestamp := k,
      health_score := 0, root_cause := "UNKNOWN" }

/-- One more incident to push into a full timeline. -/
def overflowIncident : Incident :=
  { node_id := "n", fromLevel := "WARNING", toLevel := "CRITICAL", timestamp := 50,
    health_score := 0, root_cause := "UNKNOWN" }

/-- A stored record for a CONNECTED node last seen at time 0. -/
def connRecord : NodeRec :=
  { hostname := "n1", metrics := none, lastSeen := 0, status := .CONNECTED,
    connection_state := .CONNECTED, agent_status := .ACTIVE, agent_state := none,
    hbSequence := 0, hbLastReceived := 0, hbMissedBeats := 0, aiResult := none }

/-- The record left for node n1 after an accepted report at time 0 followed by
a sweep at time 20000. -/
def sweptRecord : NodeRec :=
  { hostname := "n1", metrics := freshPayload.metrics, lastSeen := 0, status := .DISCONNECTED,
    connection_state := .DISCONNECTED, agent_status := .ACTIVE, agent_state := none,
    hbSequence := 0, hbLastReceived := 0, hbMissedBeats := 0, aiResult := some normalAi }

/-- An engine configuration with equal convex confidence weights. -/
def witnessConfig : EngineConfig :=
  { windowCapacity := 20, persistenceFloor := 3, stableBand := 1, criticalBand := 5,
    horizon := 10, saturationK := 4, wAgreement := 1 / 3, wFill := 1 / 3,
    wPersistence := 1 / 3 }

/-! ### Helper lemmas on stores -/

theorem getKey_setKey_same {α : Type} (l : List (String × α)) (k : String) (v : α) :
    getKey (setKey l k v) k = some v := by
  induction l with
  | nil => simp [setKey, getKey]
  | cons hd tl ih =>
      by_cases h : hd.1 = k
      · simp [setKey, getKey, h]
      · simp [setKey, getKey, h, ih]

theorem getKey_setKey_other {α : Type} (l : List (String × α)) (k m : String) (v : α)
    (hne : m ≠ k) : getKey (setKey l k v) m = getKey l m := by
  have hkm : ¬ k = m := fun h => hne h.symm
  induction l with
  | nil => simp [setKey, getKey, hkm]
  | cons hd tl ih =>
      obtain ⟨k0, v0⟩ := hd
      by_cases h : k0 = k
      · subst h
        simp [setKey, getKey, hkm]
      · simp [setKey, getKey, h, ih]

/-! ### Helper lemmas on the heartbeat tracker -/

theorem seqUpdate_missed_le (t : Tracker) (hb : Option Heartbeat) :
    t.missedHeartbeats ≤ (seqUpdate t hb).missedHeartbeats := by
  cases hb with
  | none => simp [seqUpdate]
  | some h =>
      obtain ⟨seq, ts⟩ := h
      cases seq with
      | none => simp [seqUpdate]
      | some a =>
          simp only [seqUpdate]
          split
          · exact Nat.le_add_right _ _
          · exact Nat.le_refl _

theorem processHeartbeat_tracker_eq (t : Tracker) (hb : Option Heartbeat) (now : Nat) :
    ((processHeartbeat (some t) hb now).1.lastSeq = (seqUpdate t hb).lastSeq) ∧
    ((processHeartbeat (some t) hb now).1.missedHeartbeats = (seqUpdate t hb).missedHeartbeats) := by
  cases hb with
  | none => exact ⟨rfl, rfl⟩
  | some h =>
      obtain ⟨seq, ts⟩ := h
      cases ts with
      | none => exact ⟨rfl, rfl⟩
      | some t0 =>
          simp only [processHeartbeat]
          split <;> exact ⟨rfl, rfl⟩

/-! ### Claim theorems: heartbeat accounting -/

/-- C1 counterexample: the claim predicts missedCount = 2 after a fresh node's
four accepted reports with heartbeat sequences 0, 1, 2, 5, but the code yields
missedCount = 3, because the first report only initializes the tracker
(lastSequence = -1) without consuming its own sequence number. -/
theorem C1_fresh_node_scenario_counterexample :
    missedOf (runSeqs [0, 1, 2, 5]) = 3 ∧ missedOf (runSeqs [0, 1, 2, 5]) ≠ 2 := by
  decide

/-- C1 (amended): on each accepted report other than a node's first, the
tracker computes expected = lastSequence + 1, adds (actual - expected) to
missedCount when actual > expected, and sets lastSequence = actual; a fresh
node's four reports with sequences 0, 1, 2, 5 end with missedCount = 3. -/
theorem C1_missed_beat_accounting :
    (∀ (t : Tracker) (a : Int) (ts : Option Nat) (now : Nat),
        ((processHeartbeat (some t) (some { sequence := some a, timestamp := ts }) now).1.lastSeq
            = a) ∧
        ((processHeartbeat (some t) (some { sequence := some a, timestamp := ts }) now).1.missedHeartbeats
            = t.missedHeartbeats +
              (if t.lastSeq + 1 < a then (a - (t.lastSeq + 1)).toNat else 0))) ∧
    missedOf (runSeqs [0, 1, 2, 5]) = 3 := by
  constructor
  · intro t a ts now
    have h := processHeartbeat_tracker_eq t (some { sequence := some a, timestamp := ts }) now
    constructor
    · rw [h.1]
      rfl
    · rw [h.2]
      simp only [seqUpdate]
      split
      · rfl
      · simp
  · decide

/-- C10: a previously unseen node's first processed report initializes the
tracker to lastSequence = -1 and missedCount = 0 and returns as a new
connection, independent of the report's own heartbeat content; the second
report's gap is therefore computed against lastSequence = -1 (expected 0). -/
theorem C10_first_report_initialization :
    (∀ (hb : Option Heartbeat) (now : Nat),
        processHeartbeat none hb now =
          ({ lastSeq := -1, lastTimestamp := now, missedHeartbeats := 0 },
           { valid := true, isNewConnection := true, missedBeats := 0 })) ∧
    (∀ (hb1 : Option Heartbeat) (now1 : Nat) (a : Int) (ts : Option Nat) (now2 : Nat),
        (processHeartbeat (some (processHeartbeat none hb1 now1).1)
            (some { sequence := some a, timestamp := ts }) now2).1.missedHeartbeats
          = if 0 < a then a.toNat else 0) := by
  constructor
  · intro hb now
    rfl
  · intro hb1 now1 a ts now2
    have h := processHeartbeat_tracker_eq
      { lastSeq := -1, lastTimestamp := now1, missedHeartbeats := 0 }
      (some { sequence := some a, timestamp := ts }) now2
    have hfirst : (processHeartbeat none hb1 now1).1 =
        { lastSeq := -1, lastTimestamp := now1, missedHeartbeats := 0 } := rfl
    rw [hfirst, h.2]
    simp only [seqUpdate]
    have hz : (-1 : Int) + 1 = 0 := by norm_num
    rw [hz]
    split
    · simp
    · rfl

/-- C7: missedCount is non-decreasing per processed report and across any
sequence of reports, and a report whose sequence number is at most the last
recorded sequence leaves missedCount unchanged. -/
theorem C7_missed_count_monotone :
    (∀ (slot : Option Tracker) (hb : Option Heartbeat) (now : Nat),
        missedOf slot ≤ (processHeartbeat slot hb now).1.missedHeartbeats) ∧
    (∀ (rs : List (Option Heartbeat × Nat)) (slot : Option Tracker),
        missedOf slot ≤ missedOf (runReports slot rs)) ∧
    (∀ (t : Tracker) (h : Heartbeat) (a : Int) (now : Nat),
        h.sequence = some a → a ≤ t.lastSeq →
        (processHeartbeat (some t) (some h) now).1.missedHeartbeats = t.missedHeartbeats) := by
  have hstep : ∀ (slot : Option Tracker) (hb : Option Heartbeat) (now : Nat),
      missedOf slot ≤ (processHeartbeat slot hb now).1.missedHeartbeats := by
    intro slot hb now
    cases slot with
    | none => simp [processHeartbeat, missedOf]
    | some t =>
        have h := processHeartbeat_tracker_eq t hb now
        have hm : missedOf (some t) = t.missedHeartbeats := rfl
        rw [hm, h.2]
        exact seqUpdate_missed_le t hb
  refine ⟨hstep, ?_, ?_⟩
  · intro rs
    induction rs with
    | nil => intro slot; exact Nat.le_refl _
    | cons r rest ih =>
        intro slot
        calc missedOf slot ≤ (processHeartbeat slot r.1 r.2).1.missedHeartbeats :=
              hstep slot r.1 r.2
          _ ≤ missedOf (runReports (some (processHeartbeat slot r.1 r.2).1) rest) :=
              ih (some (processHeartbeat slot r.1 r.2).1)
          _ = missedOf (runReports slot (r :: rest)) := by rfl
  · intro t h a now hseq hle
    have heq := processHeartbeat_tracker_eq t (some h) now
    rw [heq.2]
    obtain ⟨seq, ts⟩ := h
    simp only at hseq
    subst hseq
    simp only [seqUpdate]
    rw [if_neg (by omega)]

/-- C7 witness: replaying sequence 3 against a tracker whose last recorded
sequence is 5 leaves missedCount unchanged. -/
theorem C7_missed_count_monotone_witness :
    (processHeartbeat (some { lastSeq := 5, lastTimestamp := 0, missedHeartbeats := 7 })
        (some { sequence := some 3, timestamp := none }) 0).1.missedHeartbeats = 7 :=
  C7_missed_count_monotone.2.2 { lastSeq := 5, lastTimestamp := 0, missedHeartbeats := 7 }
    { sequence := some 3, timestamp := none } 3 0 rfl (by decide)

/-! ### Incident-manager lemmas and claims C4, C5 -/

theorem getNodeState_default (st : IncidentState) (nid : String) (now : Nat) :
    getNodeState st nid =
      ((getKey st.nodeStates nid).getD
        { currentState := DEFAULT_STATE, lastStateChange := now }).currentState := by
  unfold getNodeState
  cases hk : getKey st.nodeStates nid <;> simp [hk, DEFAULT_STATE]

/-- C4: an incident is emitted iff the observation's risk level differs from
the node's stored level (NORMAL when previously unseen), the stored level is
always updated to the new value; the risk sequence NORMAL, NORMAL, WARNING,
WARNING, CRITICAL, NORMAL yields exactly the three transitions
NORMAL-WARNING, WARNING-CRITICAL, CRITICAL-NORMAL in order and the stored
level ends at NORMAL. -/
theorem C4_incident_emission :
    (∀ (st : IncidentState) (now : Nat) (nid : String) (sh : SystemHealth)
        (rc : Option RootCause),
        ((updateState st now nid sh rc).2.isSome ↔ sh.risk_level ≠ getNodeState st nid) ∧
        getNodeState (updateState st now nid sh rc).1 nid = sh.risk_level) ∧
    ((runRiskSeq ["NORMAL", "NORMAL", "WARNING", "WARNING", "CRITICAL", "NORMAL"]).2.map
        (fun i => (i.fromLevel, i.toLevel)) =
      [("NORMAL", "WARNING"), ("WARNING", "CRITICAL"), ("CRITICAL", "NORMAL")]) ∧
    ((runRiskSeq ["NORMAL", "NORMAL", "WARNING", "WARNING", "CRITICAL", "NORMAL"]).2.length = 3) ∧
    (getNodeState (runRiskSeq ["NORMAL", "NORMAL", "WARNING", "WARNING", "CRITICAL", "NORMAL"]).1
        "node-1" = "NORMAL") := by
  refine ⟨?_, by decide, by decide, by decide⟩
  intro st now nid sh rc
  have hstate := getNodeState_default st nid now
  simp only [updateState]
  split_ifs with hne
  · refine ⟨?_, ?_⟩
    · simp only [Option.isSome_some, hstate]
      exact iff_of_true trivial hne
    · rw [getNodeState_default _ _ now]
      rw [getKey_setKey_same]
      rfl
  · rw [not_ne_iff] at hne
    refine ⟨?_, ?_⟩
    · simp [hstate, hne]
    · rw [getNodeState_default _ _ now]
      rw [getKey_setKey_same]
      exact hne.symm

theorem pushIncident_eq (t : List Incident) (i : Incident) :
    pushIncident t i = if MAX_INCIDENTS < t.length + 1 then t.tail ++ [i] else t ++ [i] := by
  show (if MAX_INCIDENTS < (t ++ [i]).length then (t ++ [i]).tail else t ++ [i]) =
    if MAX_INCIDENTS < t.length + 1 then t.tail ++ [i] else t ++ [i]
  simp only [List.length_append, List.length_singleton]
  split_ifs with h
  · cases t with
    | nil =>
        exfalso
        simp [MAX_INCIDENTS] at h
    | cons a rest => rfl
  · rfl

theorem pushIncident_length_le (t : List Incident) (i : Incident)
    (h : t.length ≤ MAX_INCIDENTS) : (pushIncident t i).length ≤ MAX_INCIDENTS := by
  rw [pushIncident_eq]
  have hM : MAX_INCIDENTS = 50 := rfl
  rw [hM] at h ⊢
  split_ifs with hc
  · simp only [List.length_append, List.length_singleton, List.length_tail]
    omega
  · simp only [List.length_append, List.length_singleton]
    omega

theorem updateState_timeline_le (st : IncidentState) (now : Nat) (nid : String)
    (sh : SystemHealth) (rc : Option RootCause) (h : st.timeline.length ≤ MAX_INCIDENTS) :
    (updateState st now nid sh rc).1.timeline.length ≤ MAX_INCIDENTS := by
  simp only [updateState]
  split_ifs
  · exact pushIncident_length_le _ _ h
  · exact h

theorem applyCalls_timeline_le (cs : List UpdCall) :
    ∀ st : IncidentState, st.timeline.length ≤ MAX_INCIDENTS →
      (applyCalls st cs).timeline.length ≤ MAX_INCIDENTS := by
  induction cs with
  | nil => intro st h; exact h
  | cons c rest ih =>
      intro st h
      have hstep := updateState_timeline_le st c.now c.nodeId c.systemHealth c.rootCause h
      exact ih _ hstep

/-- C5: after any sequence of updateState calls the timeline holds at most 50
incidents; the push is FIFO (append, evict oldest only when over capacity);
pushing into a full 50-entry timeline leaves exactly 50 with the oldest entry
evicted and all later entries still present in order. -/
theorem C5_timeline_bound :
    (∀ cs : List UpdCall,
        (applyCalls emptyIncidentState cs).timeline.length ≤ MAX_INCIDENTS) ∧
    (∀ (t : List Incident) (i : Incident),
        pushIncident t i = if MAX_INCIDENTS < t.length + 1 then t.tail ++ [i] else t ++ [i]) ∧
    (∀ (t : List Incident) (i : Incident), t.length = MAX_INCIDENTS →
        pushIncident t i = t.tail ++ [i] ∧ (pushIncident t i).length = MAX_INCIDENTS) := by
  refine ⟨?_, pushIncident_eq, ?_⟩
  · intro cs
    exact applyCalls_timeline_le cs emptyIncidentState (by simp [emptyIncidentState])
  · intro t i hlen
    have hcond : MAX_INCIDENTS < t.length + 1 := by
      rw [hlen]
      exact Nat.lt_succ_self _
    constructor
    · rw [pushIncident_eq, if_pos hcond]
    · rw [pushIncident_eq, if_pos hcond]
      have hM : MAX_INCIDENTS = 50 := rfl
      rw [hM] at hlen ⊢
      simp only [List.length_append, List.length_singleton, List.length_tail]
      omega

/-- C5 witness: pushing a 51st incident into a timeline of exactly 50 entries
evicts the oldest and leaves exactly 50. -/
theorem C5_timeline_bound_witness :
    fullTimeline.length = MAX_INCIDENTS ∧
    pushIncident fullTimeline overflowIncident = fullTimeline.tail ++ [overflowIncident] ∧
    (pushIncident fullTimeline overflowIncident).length = MAX_INCIDENTS := by
  have hlen : fullTimeline.length = MAX_INCIDENTS := by
    simp [fullTimeline]
  have h := C5_timeline_bound.2.2 fullTimeline overflowIncident hlen
  exact ⟨hlen, h.1, h.2⟩

/-! ### Claim C6: validator order -/

/-- C6: validateAgentPayload realizes the spec's check ladder: the four checks
are evaluated in order (node_id, metric shape, utilization range, metric
staleness), the reported reason belongs to the first failing check, and the
payload is valid exactly when all applicable checks pass. -/
theorem C6_validator_order :
    ∀ (now : Nat) (p : Payload),
      classify (validateAgentPayload now p) = specFirstFailure now p := by
  intro now p
  obtain ⟨nodeId, hostname, metrics, agentState, heartbeat⟩ := p
  cases nodeId with
  | none => rfl
  | some nid =>
      by_cases hnid : nid = ""
      · subst hnid
        rfl
      · cases metrics with
        | none =>
            simp [validateAgentPayload, specFirstFailure, hasValidNodeId, hasNumericMetrics,
              classify, hnid]
        | some m =>
            obtain ⟨cpu, memory, ts⟩ := m
            cases hc : cpu.bind UsageStats.usage_percent with
            | none =>
                simp [validateAgentPayload, specFirstFailure, hasValidNodeId,
                  hasNumericMetrics, classify, hnid, hc]
            | some c =>
                cases hm : memory.bind UsageStats.usage_percent with
                | none =>
                    simp [validateAgentPayload, specFirstFailure, hasValidNodeId,
                      hasNumericMetrics, classify, hnid, hc, hm]
                | some mem =>
                    by_cases hcr : c < 0 ∨ 100 < c
                    · have hnr : ¬ (0 ≤ c ∧ c ≤ 100 ∧ 0 ≤ mem ∧ mem ≤ 100) := by
                        rcases hcr with h | h
                        · intro hh; exact absurd hh.1 (not_le.mpr h)
                        · intro hh; exact absurd hh.2.1 (not_le.mpr h)
                      simp [validateAgentPayload, specFirstFailure, hasValidNodeId,
                        hasNumericMetrics, utilizationInRange, classify, hnid, hc, hm, hcr, hnr]
                    · by_cases hmr : mem < 0 ∨ 100 < mem
                      · have hnr : ¬ (0 ≤ c ∧ c ≤ 100 ∧ 0 ≤ mem ∧ mem ≤ 100) := by
                          rcases hmr with h | h
                          · intro hh; exact absurd hh.2.2.1 (not_le.mpr h)
                          · intro hh; exact absurd hh.2.2.2 (not_le.mpr h)
                        simp [validateAgentPayload, specFirstFailure, hasValidNodeId,
                          hasNumericMetrics, utilizationInRange, classify, hnid, hc, hm, hcr,
                          hmr, hnr]
                      · have hr : 0 ≤ c ∧ c ≤ 100 ∧ 0 ≤ mem ∧ mem ≤ 100 := by
                          push_neg at hcr hmr
                          exact ⟨hcr.1, hcr.2, hmr.1, hmr.2⟩
                        cases ts with
                        | none =>
                            simp [validateAgentPayload, specFirstFailure, hasValidNodeId,
                              hasNumericMetrics, utilizationInRange, timestampFresh, classify,
                              hnid, hc, hm, hcr, hmr, hr]
                        | some t0 =>
                            by_cases hstale : METRIC_STALE_MS < now - t0
                            · simp [validateAgentPayload, specFirstFailure, hasValidNodeId,
                                hasNumericMetrics, utilizationInRange, timestampFresh, classify,
                                hnid, hc, hm, hcr, hmr, hr, hstale, not_le.mpr hstale]
                            · simp [validateAgentPayload, specFirstFailure, hasValidNodeId,
                                hasNumericMetrics, utilizationInRange, timestampFresh, classify,
                                hnid, hc, hm, hcr, hmr, hr, hstale, not_lt.mp hstale]

/-! ### Claim C2: rejection atomicity -/

/-- C2 counterexample: a report rejected for heartbeat staleness does mutate
stored state.  Node n1 has a tracker at lastSeq 0; a validation-passing report
at t = 40s, whose heartbeat carries sequence 2 and timestamp 0 (stale beyond
the 30s bound), is rejected, yet the tracker becomes lastSeq 2 with
missedCount 1. -/
theorem C2_stale_rejection_mutates_counterexample :
    (processAgentMetrics staleState 40000 stalePayload normalAi).2.1 =
      Except.error "Stale heartbeat rejected" ∧
    getKey (processAgentMetrics staleState 40000 stalePayload normalAi).1.tracker "n1" =
      some { lastSeq := 2, lastTimestamp := 0, missedHeartbeats := 1 } ∧
    getKey (processAgentMetrics staleState 40000 stalePayload normalAi).1.tracker "n1" ≠
      getKey staleState.tracker "n1" := by
  refine ⟨rfl, rfl, ?_⟩
  decide

/-- C2 (amended): reports rejected by payload validation mutate no stored
state at all; reports rejected for heartbeat staleness leave the node store,
the incident state and every other node's tracker unchanged, but first apply
the sequence accounting to the rejected node's own tracker (lastSequence set
to the report's sequence, missedCount increased by the forward gap) without
refreshing its lastTimestamp. -/
theorem C2_rejection_atomicity :
    (∀ (st : SystemState) (now : Nat) (p : Payload) (aiR : AIResult) (e : String),
        validateAgentPayload now p = .err e →
        processAgentMetrics st now p aiR = (st, .error e, [])) ∧
    (∀ (st : SystemState) (now : Nat) (p : Payload) (aiR : AIResult) (t : Tracker)
        (hb : Heartbeat) (ts : Nat),
        validateAgentPayload now p = .ok →
        getKey st.tracker (p.node_id.getD "") = some t →
        p.heartbeat = some hb →
        hb.timestamp = some ts →
        HEARTBEAT_STALE_MS < now - ts →
        (processAgentMetrics st now p aiR =
           ({ st with
              tracker := setKey st.tracker (p.node_id.getD "") (seqUpdate t p.heartbeat) },
            .error "Stale heartbeat rejected", [])) ∧
        (processAgentMetrics st now p aiR).1.nodeStore = st.nodeStore ∧
        (processAgentMetrics st now p aiR).1.incidents = st.incidents ∧
        (∀ m, m ≠ p.node_id.getD "" →
          getKey (processAgentMetrics st now p aiR).1.tracker m = getKey st.tracker m)) := by
  constructor
  · intro st now p aiR e hval
    simp only [processAgentMetrics, hval]
  · intro st now p aiR t hb ts hval hkey hhb hts hstale
    have hph : processHeartbeat (getKey st.tracker (p.node_id.getD "")) p.heartbeat now =
        (seqUpdate t p.heartbeat,
         { valid := false, isNewConnection := false,
           missedBeats := (seqUpdate t p.heartbeat).missedHeartbeats }) := by
      rw [hkey, hhb]
      obtain ⟨seq, ts0⟩ := hb
      simp only at hts
      subst hts
      simp [processHeartbeat, hstale, hhb]
    have hmain : processAgentMetrics st now p aiR =
        ({ st with
           tracker := setKey st.tracker (p.node_id.getD "") (seqUpdate t p.heartbeat) },
         .error "Stale heartbeat rejected", []) := by
      simp only [processAgentMetrics, hval, hph]
      rw [if_pos trivial]
    refine ⟨hmain, ?_, ?_, ?_⟩
    · rw [hmain]
    · rw [hmain]
    · intro m hm
      rw [hmain]
      exact getKey_setKey_other _ _ _ _ hm

/-- C2 witness: the amended theorem applied at concrete inputs.  A report with
a missing node_id changes nothing; the stale report of the counterexample
state leaves the node store and incident state unchanged while its tracker
entry takes the sequence update. -/
theorem C2_rejection_atomicity_witness :
    (processAgentMetrics staleState 0 invalidPayload normalAi =
      (staleState, .error "Missing or invalid node_id", [])) ∧
    ((processAgentMetrics staleState 40000 stalePayload normalAi).1.nodeStore =
      staleState.nodeStore ∧
     (processAgentMetrics staleState 40000 stalePayload normalAi).1.incidents =
      staleState.incidents ∧
     getKey (processAgentMetrics staleState 40000 stalePayload normalAi).1.tracker "n2" =
      getKey staleState.tracker "n2") := by
  constructor
  · exact C2_rejection_atomicity.1 staleState 0 invalidPayload normalAi
      "Missing or invalid node_id" (by decide)
  · have h := C2_rejection_atomicity.2 staleState 40000 stalePayload normalAi
      { lastSeq := 0, lastTimestamp := 0, missedHeartbeats := 0 }
      { sequence := some 2, timestamp := some 0 } 0
      (by decide) (by decide) rfl rfl (by decide)
    exact ⟨h.2.1, h.2.2.1, h.2.2.2 "n2" (by decide)⟩

/-! ### Claim C9: decision shape (spec-modelled engine) -/

theorem agreementScore_bounds (a v : ℚ) :
    0 ≤ agreementScore a v ∧ agreementScore a v ≤ 1 := by
  unfold agreementScore
  split_ifs <;> norm_num

theorem fillFraction_bounds (cfg : EngineConfig) (w : List Observation) :
    0 ≤ fillFraction cfg w ∧ fillFraction cfg w ≤ 1 := by
  unfold fillFraction
  split_ifs with h
  · norm_num
  · refine ⟨le_min (by norm_num) (by positivity), min_le_left _ _⟩

theorem persistenceFactor_bounds (cfg : EngineConfig) (p : Nat) :
    0 ≤ persistenceFactor cfg p ∧ persistenceFactor cfg p ≤ 1 := by
  unfold persistenceFactor
  have hd : (0 : ℚ) < (p : ℚ) + (cfg.saturationK : ℚ) + 1 := by positivity
  constructor
  · positivity
  · rw [div_le_one hd]
    have hk : (0 : ℚ) ≤ (cfg.saturationK : ℚ) := by positivity
    linarith

/-- C9: every evaluation cycle of the (spec-modelled) Decision Engine emits
exactly one Decision, its kind is one of the five enumerated values, and its
confidence lies in [0, 1], for any configuration with nonnegative confidence
weights of total at most one. -/
theorem C9_decision_shape :
    ∀ (cfg : EngineConfig) (window : List Observation) (o : Observation)
      (healEligible healInFlight : Bool),
      0 ≤ cfg.wAgreement → 0 ≤ cfg.wFill → 0 ≤ cfg.wPersistence →
      cfg.wAgreement + cfg.wFill + cfg.wPersistence ≤ 1 →
      (((evaluateCycle cfg window o healEligible healInFlight).1.kind = .NO_ACTION ∨
        (evaluateCycle cfg window o healEligible healInFlight).1.kind = .ESCALATE ∨
        (evaluateCycle cfg window o healEligible healInFlight).1.kind = .DE_ESCALATE ∨
        (evaluateCycle cfg window o healEligible healInFlight).1.kind = .PREDICT_FAILURE ∨
        (evaluateCycle cfg window o healEligible healInFlight).1.kind = .AUTO_HEAL) ∧
       (0 ≤ (evaluateCycle cfg window o healEligible healInFlight).1.confidence ∧
        (evaluateCycle cfg window o healEligible healInFlight).1.confidence ≤ 1)) := by
  intro cfg window o he hif hA hF hP hsum
  constructor
  · cases hkind : (evaluateCycle cfg window o he hif).1.kind with
    | NO_ACTION => exact Or.inl rfl
    | ESCALATE => exact Or.inr (Or.inl rfl)
    | DE_ESCALATE => exact Or.inr (Or.inr (Or.inl rfl))
    | PREDICT_FAILURE => exact Or.inr (Or.inr (Or.inr (Or.inl rfl)))
    | AUTO_HEAL => exact Or.inr (Or.inr (Or.inr (Or.inr rfl)))
  · have hconf : (evaluateCycle cfg window o he hif).1.confidence =
        confidenceOf cfg
          (agreementScore o.anomalyScore (windowVelocity (pushWindow cfg window o)))
          (fillFraction cfg (pushWindow cfg window o))
          (persistenceFactor cfg (persistenceOf (pushWindow cfg window o) o.riskLevel)) := rfl
    rw [hconf]
    have ha := agreementScore_bounds o.anomalyScore (windowVelocity (pushWindow cfg window o))
    have hb := fillFraction_bounds cfg (pushWindow cfg window o)
    have hc := persistenceFactor_bounds cfg (persistenceOf (pushWindow cfg window o) o.riskLevel)
    unfold confidenceOf
    constructor
    · have h1 := mul_nonneg hA ha.1
      have h2 := mul_nonneg hF hb.1
      have h3 := mul_nonneg hP hc.1
      linarith
    · have h1 : cfg.wAgreement * agreementScore o.anomalyScore
          (windowVelocity (pushWindow cfg window o)) ≤ cfg.wAgreement :=
        le_of_le_of_eq (mul_le_mul_of_nonneg_left ha.2 hA) (mul_one _)
      have h2 : cfg.wFill * fillFraction cfg (pushWindow cfg window o) ≤ cfg.wFill :=
        le_of_le_of_eq (mul_le_mul_of_nonneg_left hb.2 hF) (mul_one _)
      have h3 : cfg.wPersistence *
          persistenceFactor cfg (persistenceOf (pushWindow cfg window o) o.riskLevel) ≤
            cfg.wPersistence :=
        le_of_le_of_eq (mul_le_mul_of_nonneg_left hc.2 hP) (mul_one _)
      linarith

/-- C9 witness: the decision-shape theorem applied at a concrete configuration
(equal convex weights) and a concrete first observation. -/
theorem C9_decision_shape_witness :
    ((evaluateCycle witnessConfig []
        { healthScore := 50, riskLevel := "NORMAL", anomalyScore := 0 } false false).1.kind
          = .NO_ACTION ∨
     (evaluateCycle witnessConfig []
        { healthScore := 50, riskLevel := "NORMAL", anomalyScore := 0 } false false).1.kind
          = .ESCALATE ∨
     (evaluateCycle witnessConfig []
        { healthScore := 50, riskLevel := "NORMAL", anomalyScore := 0 } false false).1.kind
          = .DE_ESCALATE ∨
     (evaluateCycle witnessConfig []
        { healthScore := 50, riskLevel := "NORMAL", anomalyScore := 0 } false false).1.kind
          = .PREDICT_FAILURE ∨
     (evaluateCycle witnessConfig []
        { healthScore := 50, riskLevel := "NORMAL", anomalyScore := 0 } false false).1.kind
          = .AUTO_HEAL) ∧
    (0 ≤ (evaluateCycle witnessConfig []
        { healthScore := 50, riskLevel := "NORMAL", anomalyScore := 0 } false false).1.confidence ∧
     (evaluateCycle witnessConfig []
        { healthScore := 50, riskLevel := "NORMAL", anomalyScore := 0 } false false).1.confidence
          ≤ 1) :=
  C9_decision_shape witnessConfig []
    { healthScore := 50, riskLevel := "NORMAL", anomalyScore := 0 } false false
    (by norm_num [witnessConfig]) (by norm_num [witnessConfig])
    (by norm_num [witnessConfig]) (by norm_num [witnessConfig])

/-! ### Store and step lemmas for the liveness claims -/

theorem getKey_eq_none_iff {α : Type} (l : List (String × α)) (n : String) :
    getKey l n = none ↔ ∀ kv ∈ l, kv.1 ≠ n := by
  induction l with
  | nil => simp [getKey]
  | cons hd tl ih =>
      obtain ⟨k0, v0⟩ := hd
      by_cases hk : k0 = n
      · simp [getKey, hk]
      · simp [getKey, hk, ih]

theorem getKey_mem {α : Type} (l : List (String × α)) (n : String) (r : α)
    (h : getKey l n = some r) : (n, r) ∈ l := by
  induction l with
  | nil => cases h
  | cons hd tl ih =>
      obtain ⟨k0, v0⟩ := hd
      rw [getKey] at h
      by_cases hk : k0 = n
      · rw [if_pos hk] at h
        injection h with h
        subst hk
        subst h
        exact List.mem_cons_self _ _
      · rw [if_neg hk] at h
        exact List.mem_cons_of_mem _ (ih h)

theorem mem_setKey {α : Type} (l : List (String × α)) (k : String) (v : α)
    (kv : String × α) (h : kv ∈ setKey l k v) : kv = (k, v) ∨ kv ∈ l := by
  induction l with
  | nil => simpa [setKey] using h
  | cons hd tl ih =>
      obtain ⟨k0, v0⟩ := hd
      rw [setKey] at h
      by_cases hk : k0 = k
      · rw [if_pos hk] at h
        rcases List.mem_cons.mp h with h1 | h1
        · exact Or.inl h1
        · exact Or.inr (List.mem_cons_of_mem _ h1)
      · rw [if_neg hk] at h
        rcases List.mem_cons.mp h with h1 | h1
        · exact Or.inr (by rw [h1]; exact List.mem_cons_self _ _)
        · rcases ih h1 with h2 | h2
          · exact Or.inl h2
          · exact Or.inr (List.mem_cons_of_mem _ h2)

theorem sweepNode_eq (now : Nat) (k : String) (r : NodeRec) :
    sweepNode now k r =
      if r.status = .CONNECTED ∧ ¬ (now - r.lastSeen < NODE_TIMEOUT_MS) then
        ({ r with status := .DISCONNECTED, connection_state := .DISCONNECTED },
         some (disconnectEvent k r))
      else (r, none) := rfl

theorem sweepNode_fst_key (now : Nat) (k k' : String) (r : NodeRec) :
    (sweepNode now k r).1 = (sweepNode now k' r).1 := by
  rw [sweepNode_eq, sweepNode_eq]
  split_ifs <;> rfl

theorem sweepNode_agent_status (now : Nat) (k : String) (r : NodeRec) :
    (sweepNode now k r).1.agent_status = r.agent_status := by
  rw [sweepNode_eq]
  split_ifs <;> rfl

theorem getKey_sweepStore (now : Nat) (store : List (String × NodeRec)) (n : String) :
    getKey (sweepStore now store).1 n =
      (getKey store n).map (fun r => (sweepNode now n r).1) := by
  induction store with
  | nil => rfl
  | cons hd tl ih =>
      obtain ⟨k0, r0⟩ := hd
      show getKey ((k0, (sweepNode now k0 r0).1) :: _) n = _
      rw [getKey, getKey]
      by_cases hk : k0 = n
      · rw [if_pos hk, if_pos hk]
        rw [sweepNode_fst_key now k0 n r0]
        rfl
      · rw [if_neg hk, if_neg hk]
        exact ih

theorem agentStatusOf_ne_offline (s : Option AgentState) :
    agentStatusOf s ≠ AgentStatus.OFFLINE := by
  cases s with
  | none => simp [agentStatusOf]
  | some st =>
      simp only [agentStatusOf]
      split_ifs <;> simp

/-- Case analysis of processAgentMetrics on the node store: a rejected report
leaves it unchanged and emits nothing; an accepted report rewrites exactly the
reported node with a CONNECTED record stamped at now. -/
theorem processAgentMetrics_store_cases (st : SystemState) (now : Nat) (p : Payload)
    (aiR : AIResult) :
    ((processAgentMetrics st now p aiR).1.nodeStore = st.nodeStore ∧
     (processAgentMetrics st now p aiR).2.2 = []) ∨
    (∃ r : NodeRec,
      (processAgentMetrics st now p aiR).1.nodeStore =
        setKey st.nodeStore (p.node_id.getD "") r ∧
      r.lastSeen = now ∧ r.status = .CONNECTED ∧
      r.agent_status = agentStatusOf p.agent_state) := by
  cases hv : validateAgentPayload now p with
  | err e =>
      left
      simp [processAgentMetrics, hv]
  | ok =>
      by_cases hhv :
        (processHeartbeat (getKey st.tracker (p.node_id.getD "")) p.heartbeat now).2.valid = false
      · left
        simp [processAgentMetrics, hv, if_pos hhv]
      · right
        refine ⟨{ hostname := hostnameOf p.hostname (p.node_id.getD ""),
                  metrics := p.metrics,
                  lastSeen := now,
                  status := .CONNECTED,
                  connection_state := .CONNECTED,
                  agent_status := agentStatusOf p.agent_state,
                  agent_state := p.agent_state,
                  hbSequence := (p.heartbeat.bind Heartbeat.sequence).getD 0,
                  hbLastReceived := now,
                  hbMissedBeats :=
                    (processHeartbeat (getKey st.tracker (p.node_id.getD ""))
                      p.heartbeat now).2.missedBeats,
                  aiResult := some aiR }, ?_, rfl, rfl, rfl⟩
        simp only [processAgentMetrics, hv, if_neg hhv]

/-- Every node_status_update emitted by processAgentMetrics is the single
CONNECTED event for the reported node. -/
theorem processAgentMetrics_statusUpdate_mem (st : SystemState) (now : Nat) (p : Payload)
    (aiR : AIResult) (u : StatusUpdate)
    (hmem : Event.statusUpdate u ∈ (processAgentMetrics st now p aiR).2.2) :
    u = { node_id := p.node_id.getD "", status := .CONNECTED, connection_state := .CONNECTED,
          agent_status := agentStatusOf p.agent_state, lastSeen := now } := by
  cases hv : validateAgentPayload now p with
  | err e =>
      exfalso
      simp only [processAgentMetrics, hv] at hmem
      cases hmem
  | ok =>
      by_cases hhv :
        (processHeartbeat (getKey st.tracker (p.node_id.getD "")) p.heartbeat now).2.valid = false
      · exfalso
        simp only [processAgentMetrics, hv, if_pos hhv] at hmem
        cases hmem
      · simp only [processAgentMetrics, hv, if_neg hhv, List.mem_append] at hmem
        rcases hmem with (hmem | hmem) | hmem
        · by_cases hnw :
            getKey st.nodeStore (p.node_id.getD "") = none ∨
              Option.map NodeRec.status (getKey st.nodeStore (p.node_id.getD "")) =
                some ConnStatus.DISCONNECTED
          · rw [if_pos hnw] at hmem
            have h := List.mem_singleton.mp hmem
            injection h
          · rw [if_neg hnw] at hmem
            exact absurd hmem (List.not_mem_nil _)
        · have h := List.mem_singleton.mp hmem
          exact Event.noConfusion h
        · rcases hupd :
              (updateState st.incidents now (p.node_id.getD "") aiR.system_health
                aiR.root_cause).2 with _ | i
          · rw [hupd] at hmem
            exact absurd hmem (List.not_mem_nil _)
          · rw [hupd] at hmem
            have h := List.mem_singleton.mp hmem
            exact Event.noConfusion h

theorem storeInv_mono {T T' : Nat} (h : T ≤ T') {store : List (String × NodeRec)}
    (hinv : StoreInv T store) : StoreInv T' store := by
  intro n r hr
  exact ⟨le_trans (hinv n r hr).1 h, fun hd => le_trans ((hinv n r hr).2 hd) h⟩

theorem stepEv_storeInv (st : SystemState) (e : Ev)
    (hinv : StoreInv (evTime e) st.nodeStore) :
    StoreInv (evTime e) (stepEv st e).1.nodeStore := by
  cases e with
  | report now p aiR =>
      intro n r' h
      rcases processAgentMetrics_store_cases st now p aiR with ⟨hsame, _⟩ | ⟨r, heq, hlast, hstat, _⟩
      · have h2 : getKey st.nodeStore n = some r' := by
          rw [← hsame]
          exact h
        exact hinv n r' h2
      · have h2 : getKey (setKey st.nodeStore (p.node_id.getD "") r) n = some r' := by
          rw [← heq]
          exact h
        by_cases hn : n = p.node_id.getD ""
        · subst hn
          rw [getKey_setKey_same] at h2
          injection h2 with h2
          subst h2
          refine ⟨by rw [hlast]; exact Nat.le_refl _, fun hd => ?_⟩
          rw [hstat] at hd
          cases hd
        · rw [getKey_setKey_other _ _ _ _ hn] at h2
          exact hinv n r' h2
  | sweep now =>
      intro n r' h
      have h2 : getKey (sweepStore now st.nodeStore).1 n = some r' := h
      rw [getKey_sweepStore] at h2
      cases hr : getKey st.nodeStore n with
      | none =>
          rw [hr] at h2
          cases h2
      | some r0 =>
          rw [hr] at h2
          have h0 := hinv n r0 hr
          injection h2 with h2
          simp only at h2
          rw [sweepNode_eq] at h2
          by_cases hc : r0.status = ConnStatus.CONNECTED ∧ ¬ (now - r0.lastSeen < NODE_TIMEOUT_MS)
          · rw [if_pos hc] at h2
            subst h2
            have hT : evTime (Ev.sweep now) = now := rfl
            have hls : r0.lastSeen ≤ now := by
              rw [hT] at h0
              exact h0.1
            have hstale : NODE_TIMEOUT_MS ≤ now - r0.lastSeen := Nat.not_lt.mp hc.2
            have hadd := (Nat.le_sub_iff_add_le hls).mp hstale
            refine ⟨?_, fun _ => ?_⟩
            · show r0.lastSeen ≤ evTime (Ev.sweep now)
              rw [hT]
              exact hls
            · show r0.lastSeen + NODE_TIMEOUT_MS ≤ evTime (Ev.sweep now)
              rw [hT]
              omega
          · rw [if_neg hc] at h2
            subst h2
            exact h0

theorem runEvs_cons_fst (st : SystemState) (e : Ev) (rest : List Ev) :
    (runEvs st (e :: rest)).1 = (runEvs (stepEv st e).1 rest).1 := rfl

theorem runEvs_cons_snd (st : SystemState) (e : Ev) (rest : List Ev) :
    (runEvs st (e :: rest)).2 = (stepEv st e).2 ++ (runEvs (stepEv st e).1 rest).2 := rfl

theorem runEvs_append_fst (xs : List Ev) :
    ∀ (st : SystemState) (ys : List Ev),
      (runEvs st (xs ++ ys)).1 = (runEvs (runEvs st xs).1 ys).1 := by
  induction xs with
  | nil => intro st ys; rfl
  | cons e rest ih =>
      intro st ys
      rw [List.cons_append, runEvs_cons_fst, ih]
      rfl

theorem chain_init {l : List Nat} :
    ∀ {a b : Nat}, List.Chain (· ≤ ·) a (l ++ [b]) → List.Chain (· ≤ ·) a l := by
  induction l with
  | nil => intro a b _; exact List.Chain.nil
  | cons c rest ih =>
      intro a b h
      cases h with
      | cons hac h2 => exact List.Chain.cons hac (ih h2)

theorem chain_lastD_le {l : List Nat} :
    ∀ {a b : Nat}, List.Chain (· ≤ ·) a (l ++ [b]) → lastD a l ≤ b := by
  induction l with
  | nil =>
      intro a b h
      cases h with
      | cons hab _ => exact hab
  | cons c rest ih =>
      intro a b h
      cases h with
      | cons hac h2 => exact ih h2

theorem runEvs_storeInv (evs : List Ev) :
    ∀ (st : SystemState) (T : Nat),
      StoreInv T st.nodeStore → List.Chain (· ≤ ·) T (evs.map evTime) →
      StoreInv (lastD T (evs.map evTime)) (runEvs st evs).1.nodeStore := by
  induction evs with
  | nil => intro st T h _; exact h
  | cons e rest ih =>
      intro st T h hchain
      cases hchain with
      | cons hTe hrest =>
          have h1 : StoreInv (evTime e) st.nodeStore := storeInv_mono hTe h
          have h2 := stepEv_storeInv st e h1
          exact ih (stepEv st e).1 (evTime e) h2 hrest

theorem sweepStore_snd (now : Nat) (store : List (String × NodeRec)) :
    (sweepStore now store).2 = store.filterMap fun kv => (sweepNode now kv.1 kv.2).2 := rfl

theorem sweepNode_snd_eq (now : Nat) (k : String) (r : NodeRec) :
    (sweepNode now k r).2 =
      if r.status = .CONNECTED ∧ ¬ (now - r.lastSeen < NODE_TIMEOUT_MS) then
        some (disconnectEvent k r)
      else none := by
  rw [sweepNode_eq]
  split_ifs <;> rfl

theorem statusEventsFor_append (n : String) (l1 l2 : List Event) :
    statusEventsFor n (l1 ++ l2) = statusEventsFor n l1 ++ statusEventsFor n l2 := by
  simp [statusEventsFor, List.filter_append]

theorem statusEventsFor_cons_statusUpdate (n : String) (u : StatusUpdate) (l : List Event) :
    statusEventsFor n (Event.statusUpdate u :: l) =
      if u.node_id = n then Event.statusUpdate u :: statusEventsFor n l
      else statusEventsFor n l := by
  by_cases h : u.node_id = n <;>
    simp [statusEventsFor, List.filter_cons, h]

theorem statusEventsFor_cons_systemMetrics (n : String) (m : EnrichedMetrics) (l : List Event) :
    statusEventsFor n (Event.systemMetrics m :: l) = statusEventsFor n l := by
  simp [statusEventsFor, List.filter_cons]

theorem statusEventsFor_cons_incident (n : String) (i : Incident) (cs : ConnStatus)
    (as : AgentStatus) (l : List Event) :
    statusEventsFor n (Event.incidentEvent i cs as :: l) = statusEventsFor n l := by
  simp [statusEventsFor, List.filter_cons]

theorem statusEventsFor_cons_disconnect (n k : String) (r : NodeRec) (l : List Event) :
    statusEventsFor n (disconnectEvent k r :: l) =
      if k = n then disconnectEvent k r :: statusEventsFor n l else statusEventsFor n l := by
  by_cases h : k = n <;> simp [statusEventsFor, disconnectEvent, List.filter_cons, h]

theorem statusEventsFor_sweep_none (now : Nat) (store : List (String × NodeRec)) (n : String)
    (h : getKey store n = none) :
    statusEventsFor n (sweepStore now store).2 = [] := by
  induction store with
  | nil => rfl
  | cons hd tl ih =>
      obtain ⟨k0, r0⟩ := hd
      rw [getKey] at h
      by_cases hk : k0 = n
      · rw [if_pos hk] at h
        cases h
      · rw [if_neg hk] at h
        have hrest := ih h
        rw [sweepStore_snd] at hrest ⊢
        rw [List.filterMap_cons]
        rw [sweepNode_snd_eq]
        split_ifs with hc
        · dsimp only
          rw [statusEventsFor_cons_disconnect]
          rw [if_neg hk]
          exact hrest
        · dsimp only
          exact hrest

theorem statusEventsFor_sweep_some (now : Nat) (store : List (String × NodeRec)) (n : String)
    (r : NodeRec) (hnd : (keysOf store).Nodup) (h : getKey store n = some r) :
    statusEventsFor n (sweepStore now store).2 =
      (if r.status = .CONNECTED ∧ ¬ (now - r.lastSeen < NODE_TIMEOUT_MS) then
        [disconnectEvent n r] else []) := by
  induction store with
  | nil => cases h
  | cons hd tl ih =>
      obtain ⟨k0, r0⟩ := hd
      have hcons : keysOf ((k0, r0) :: tl) = k0 :: keysOf tl := rfl
      rw [hcons] at hnd
      have hnotin : k0 ∉ keysOf tl := (List.nodup_cons.mp hnd).1
      have hnd2 : (keysOf tl).Nodup := (List.nodup_cons.mp hnd).2
      rw [getKey] at h
      rw [sweepStore_snd, List.filterMap_cons, sweepNode_snd_eq]
      dsimp only
      by_cases hk : k0 = n
      · rw [if_pos hk] at h
        injection h with h
        subst h
        subst hk
        have hnone : getKey tl k0 = none := by
          rw [getKey_eq_none_iff]
          intro kv hkv hkv1
          exact hnotin (by rw [← hkv1]; exact List.mem_map_of_mem Prod.fst hkv)
        have hrest := statusEventsFor_sweep_none now tl k0 hnone
        rw [sweepStore_snd] at hrest
        by_cases hc : r0.status = ConnStatus.CONNECTED ∧ ¬ now - r0.lastSeen < NODE_TIMEOUT_MS
        · rw [if_pos hc, if_pos hc]
          dsimp only
          rw [statusEventsFor_cons_disconnect, if_pos rfl, hrest]
        · rw [if_neg hc, if_neg hc]
          dsimp only
          exact hrest
      · rw [if_neg hk] at h
        have hrest := ih hnd2 h
        rw [sweepStore_snd] at hrest
        by_cases hc : r0.status = ConnStatus.CONNECTED ∧ ¬ now - r0.lastSeen < NODE_TIMEOUT_MS
        · rw [if_pos hc]
          dsimp only
          rw [statusEventsFor_cons_disconnect, if_neg hk]
          exact hrest
        · rw [if_neg hc]
          dsimp only
          exact hrest

/-- The status-update events of an accepted report: exactly one CONNECTED
event for the reported node when it was new or disconnected, none otherwise,
and never any for another node. -/
theorem processAgentMetrics_statusEvents (st : SystemState) (now : Nat) (p : Payload)
    (aiR : AIResult) (m : EnrichedMetrics)
    (hok : (processAgentMetrics st now p aiR).2.1 = .ok m) (q : String) :
    statusEventsFor q (processAgentMetrics st now p aiR).2.2 =
      (if q = p.node_id.getD "" ∧
          (getKey st.nodeStore (p.node_id.getD "") = none ∨
           Option.map NodeRec.status (getKey st.nodeStore (p.node_id.getD "")) =
             some ConnStatus.DISCONNECTED) then
        [connectEvent (p.node_id.getD "") (agentStatusOf p.agent_state) now] else []) := by
  cases hv : validateAgentPayload now p with
  | err e =>
      exfalso
      simp only [processAgentMetrics, hv] at hok
      cases hok
  | ok =>
      by_cases hhv :
        (processHeartbeat (getKey st.tracker (p.node_id.getD "")) p.heartbeat now).2.valid = false
      · exfalso
        simp only [processAgentMetrics, hv, if_pos hhv] at hok
        cases hok
      · simp only [processAgentMetrics, hv, if_neg hhv]
        rw [statusEventsFor_append, statusEventsFor_append]
        rw [statusEventsFor_cons_systemMetrics]
        have hinc : statusEventsFor q
            (match (updateState st.incidents now (p.node_id.getD "") aiR.system_health
                aiR.root_cause).2 with
             | some i => [Event.incidentEvent i ConnStatus.CONNECTED (agentStatusOf p.agent_state)]
             | none => []) = [] := by
          rcases hupd :
              (updateState st.incidents now (p.node_id.getD "") aiR.system_health
                aiR.root_cause).2 with _ | i
          · rfl
          · rw [statusEventsFor_cons_incident]
            rfl
        rw [hinc]
        by_cases hnw :
          getKey st.nodeStore (p.node_id.getD "") = none ∨
            Option.map NodeRec.status (getKey st.nodeStore (p.node_id.getD "")) =
              some ConnStatus.DISCONNECTED
        · rw [if_pos hnw]
          by_cases hq : q = p.node_id.getD ""
          · rw [if_pos ⟨hq, hnw⟩]
            rw [statusEventsFor_cons_statusUpdate]
            rw [if_pos hq.symm]
            rfl
          · rw [if_neg (fun hcon => hq hcon.1)]
            rw [statusEventsFor_cons_statusUpdate]
            rw [if_neg (fun hcon => hq hcon.symm)]
            rfl
        · rw [if_neg hnw]
          rw [if_neg (fun hcon => hnw hcon.2)]
          rfl

/-- After an accepted report the reported node's stored status is CONNECTED. -/
theorem processAgentMetrics_status_connected (st : SystemState) (now : Nat) (p : Payload)
    (aiR : AIResult) (m : EnrichedMetrics)
    (hok : (processAgentMetrics st now p aiR).2.1 = .ok m) :
    Option.map NodeRec.status
        (getKey (processAgentMetrics st now p aiR).1.nodeStore (p.node_id.getD "")) =
      some ConnStatus.CONNECTED := by
  cases hv : validateAgentPayload now p with
  | err e =>
      exfalso
      simp only [processAgentMetrics, hv] at hok
      cases hok
  | ok =>
      by_cases hhv :
        (processHeartbeat (getKey st.tracker (p.node_id.getD "")) p.heartbeat now).2.valid = false
      · exfalso
        simp only [processAgentMetrics, hv, if_pos hhv] at hok
        cases hok
      · simp only [processAgentMetrics, hv, if_neg hhv]
        rw [getKey_setKey_same]
        rfl

/-! ### Claim C3: connection-signal discipline -/

/-- C3: the sweep emits exactly one DISCONNECTED status event for a CONNECTED
node at or beyond the timeout and none otherwise (in particular none while a
node stays disconnected); a rejected report emits no events; an accepted
report emits exactly one CONNECTED status event iff the node was new or
disconnected (and none for any other node) and leaves the node CONNECTED; and
after any sweep that ends a time-monotone trace, a stored node is
DISCONNECTED iff its lastSeen is at least the timeout before the sweep time. -/
theorem C3_connection_signal_discipline :
    (∀ (store : List (String × NodeRec)) (now : Nat) (n : String) (r : NodeRec),
        (keysOf store).Nodup → getKey store n = some r →
        statusEventsFor n (sweepStore now store).2 =
          (if r.status = .CONNECTED ∧ ¬ (now - r.lastSeen < NODE_TIMEOUT_MS) then
            [disconnectEvent n r] else [])) ∧
    (∀ (store : List (String × NodeRec)) (now : Nat) (n : String),
        getKey store n = none → statusEventsFor n (sweepStore now store).2 = []) ∧
    (∀ (st : SystemState) (now : Nat) (p : Payload) (aiR : AIResult) (e : String),
        (processAgentMetrics st now p aiR).2.1 = .error e →
        (processAgentMetrics st now p aiR).2.2 = []) ∧
    (∀ (st : SystemState) (now : Nat) (p : Payload) (aiR : AIResult) (m : EnrichedMetrics)
        (q : String),
        (processAgentMetrics st now p aiR).2.1 = .ok m →
        (statusEventsFor q (processAgentMetrics st now p aiR).2.2 =
          (if q = p.node_id.getD "" ∧
              (getKey st.nodeStore (p.node_id.getD "") = none ∨
               Option.map NodeRec.status (getKey st.nodeStore (p.node_id.getD "")) =
                 some ConnStatus.DISCONNECTED) then
            [connectEvent (p.node_id.getD "") (agentStatusOf p.agent_state) now] else [])) ∧
        Option.map NodeRec.status
            (getKey (processAgentMetrics st now p aiR).1.nodeStore (p.node_id.getD "")) =
          some ConnStatus.CONNECTED) ∧
    (∀ (evs : List Ev) (T : Nat) (n : String) (r : NodeRec),
        List.Chain (· ≤ ·) 0 ((evs ++ [Ev.sweep T]).map evTime) →
        getKey (runEvs initialState (evs ++ [Ev.sweep T])).1.nodeStore n = some r →
        (r.status = .DISCONNECTED ↔ r.lastSeen + NODE_TIMEOUT_MS ≤ T)) := by
  refine ⟨fun store now n r hnd h => statusEventsFor_sweep_some now store n r hnd h,
    fun store now n h => statusEventsFor_sweep_none now store n h, ?_, ?_, ?_⟩
  · intro st now p aiR e herr
    cases hv : validateAgentPayload now p with
    | err e2 => simp only [processAgentMetrics, hv]
    | ok =>
        by_cases hhv :
          (processHeartbeat (getKey st.tracker (p.node_id.getD "")) p.heartbeat now).2.valid
            = false
        · simp only [processAgentMetrics, hv, if_pos hhv]
        · exfalso
          simp only [processAgentMetrics, hv, if_neg hhv] at herr
          exact Except.noConfusion herr
  · intro st now p aiR m q hok
    exact ⟨processAgentMetrics_statusEvents st now p aiR m hok q,
      processAgentMetrics_status_connected st now p aiR m hok⟩
  · intro evs T n r hchain hget
    have hfst : (runEvs initialState (evs ++ [Ev.sweep T])).1 =
        (runEvs (runEvs initialState evs).1 [Ev.sweep T]).1 :=
      runEvs_append_fst evs initialState [Ev.sweep T]
    rw [hfst] at hget
    have hmap : (evs ++ [Ev.sweep T]).map evTime = evs.map evTime ++ [T] := by
      rw [List.map_append]
      rfl
    rw [hmap] at hchain
    have hinv0 : StoreInv 0 initialState.nodeStore := by
      intro n0 r0 h0
      cases h0
    have hmidinv := runEvs_storeInv evs initialState 0 hinv0 (chain_init hchain)
    have hlast := chain_lastD_le hchain
    have hinvT : StoreInv T (runEvs initialState evs).1.nodeStore := storeInv_mono hlast hmidinv
    have hget2 : getKey (sweepStore T (runEvs initialState evs).1.nodeStore).1 n = some r := hget
    rw [getKey_sweepStore] at hget2
    cases hr0 : getKey (runEvs initialState evs).1.nodeStore n with
    | none =>
        rw [hr0] at hget2
        cases hget2
    | some r0 =>
        rw [hr0] at hget2
        injection hget2 with hget2
        simp only at hget2
        have h0 := hinvT n r0 hr0
        rw [sweepNode_eq] at hget2
        by_cases hc : r0.status = ConnStatus.CONNECTED ∧ ¬ (T - r0.lastSeen < NODE_TIMEOUT_MS)
        · rw [if_pos hc] at hget2
          dsimp only at hget2
          subst hget2
          have hstale : NODE_TIMEOUT_MS ≤ T - r0.lastSeen := Nat.not_lt.mp hc.2
          have hadd := (Nat.le_sub_iff_add_le h0.1).mp hstale
          refine iff_of_true rfl ?_
          show r0.lastSeen + NODE_TIMEOUT_MS ≤ T
          omega
        · rw [if_neg hc] at hget2
          dsimp only at hget2
          subst hget2
          cases hst : r0.status with
          | DISCONNECTED => exact iff_of_true rfl (h0.2 hst)
          | CONNECTED =>
              refine iff_of_false ?_ ?_
              · intro hcon
                exact ConnStatus.noConfusion hcon
              · have hlt : T - r0.lastSeen < NODE_TIMEOUT_MS := by
                  by_contra hge
                  exact hc ⟨hst, hge⟩
                have hls : r0.lastSeen ≤ T := h0.1
                omega

/-- C3 witness: the discipline theorem applied at concrete inputs: a timed-out
CONNECTED node produces one DISCONNECTED event at the sweep; an empty store
produces none; a rejected report produces none; a fresh accepted report
produces exactly one CONNECTED event; and after a report at 0 and a sweep at
20000, node n1 is stored DISCONNECTED with its timeout elapsed. -/
theorem C3_connection_signal_discipline_witness :
    statusEventsFor "n1" (sweepStore 20000 [("n1", connRecord)]).2 =
      [disconnectEvent "n1" connRecord] ∧
    statusEventsFor "n1" (sweepStore 20000 ([] : List (String × NodeRec))).2 = [] ∧
    (processAgentMetrics staleState 0 invalidPayload normalAi).2.2 = [] ∧
    statusEventsFor "n1" (processAgentMetrics initialState 0 freshPayload normalAi).2.2 =
      [connectEvent "n1" (agentStatusOf none) 0] ∧
    (sweptRecord.status = ConnStatus.DISCONNECTED ↔
      sweptRecord.lastSeen + NODE_TIMEOUT_MS ≤ 20000) := by
  refine ⟨?_, ?_, ?_, ?_, ?_⟩
  · have h := C3_connection_signal_discipline.1 [("n1", connRecord)] 20000 "n1" connRecord
      (by decide) (by decide)
    rw [h, if_pos (by decide)]
  · exact C3_connection_signal_discipline.2.1 [] 20000 "n1" rfl
  · exact C3_connection_signal_discipline.2.2.1 staleState 0 invalidPayload normalAi
      "Missing or invalid node_id" rfl
  · have h := (C3_connection_signal_discipline.2.2.2.1 initialState 0 freshPayload normalAi
      { node_id := "n1", hostname := "n1", connection_state := .CONNECTED,
        agent_status := agentStatusOf none, agent_state := none, aiResult := normalAi }
      "n1" rfl).1
    rw [h, if_pos (by decide)]
    rfl
  · exact C3_connection_signal_discipline.2.2.2.2
      [Ev.report 0 freshPayload normalAi] 20000 "n1" sweptRecord
      (List.Chain.cons (by decide) (List.Chain.cons (by decide) List.Chain.nil)) (by decide)

/-! ### Claim C8: agent-status and connection-state coupling -/

theorem stepEv_storedStatusInv (st : SystemState) (e : Ev)
    (hinv : StoredStatusInv st.nodeStore) : StoredStatusInv (stepEv st e).1.nodeStore := by
  cases e with
  | report now p aiR =>
      intro kv hkv
      rcases processAgentMetrics_store_cases st now p aiR with ⟨hsame, _⟩ | ⟨r, heq, _, _, hstat⟩
      · have hkv2 : kv ∈ st.nodeStore := by
          rw [← hsame]
          exact hkv
        exact hinv kv hkv2
      · have hkv2 : kv ∈ setKey st.nodeStore (p.node_id.getD "") r := by
          rw [← heq]
          exact hkv
        rcases mem_setKey _ _ _ _ hkv2 with h1 | h1
        · rw [h1]
          dsimp only
          rw [hstat]
          exact agentStatusOf_ne_offline _
        · exact hinv kv h1
  | sweep now =>
      intro kv hkv
      have hkv2 : kv ∈ st.nodeStore.map (fun kv => (kv.1, (sweepNode now kv.1 kv.2).1)) := hkv
      rcases List.mem_map.mp hkv2 with ⟨kv0, hkv0, heq⟩
      rw [← heq]
      dsimp only
      rw [sweepNode_agent_status]
      exact hinv kv0 hkv0

theorem runEvs_storedStatusInv (evs : List Ev) :
    ∀ st : SystemState, StoredStatusInv st.nodeStore →
      StoredStatusInv (runEvs st evs).1.nodeStore := by
  induction evs with
  | nil => intro st h; exact h
  | cons e rest ih =>
      intro st h
      exact ih _ (stepEv_storedStatusInv st e h)

theorem stepEv_statusUpdate_iff (st : SystemState) (e : Ev) (u : StatusUpdate)
    (hmem : Event.statusUpdate u ∈ (stepEv st e).2) :
    (u.agent_status = .OFFLINE ↔ u.connection_state = .DISCONNECTED) := by
  cases e with
  | report now p aiR =>
      have h := processAgentMetrics_statusUpdate_mem st now p aiR u hmem
      rw [h]
      refine iff_of_false ?_ ?_
      · exact agentStatusOf_ne_offline _
      · intro hcon
        exact ConnStatus.noConfusion hcon
  | sweep now =>
      have hmem2 : Event.statusUpdate u ∈
          st.nodeStore.filterMap (fun kv => (sweepNode now kv.1 kv.2).2) := hmem
      rcases List.mem_filterMap.mp hmem2 with ⟨kv, hkv, hsome⟩
      rw [sweepNode_snd_eq] at hsome
      by_cases hc : kv.2.status = ConnStatus.CONNECTED ∧
          ¬ (now - kv.2.lastSeen < NODE_TIMEOUT_MS)
      · rw [if_pos hc] at hsome
        injection hsome with h2
        simp only [disconnectEvent] at h2
        injection h2 with h3
        rw [← h3]
        exact iff_of_true rfl rfl
      · rw [if_neg hc] at hsome
        cases hsome

theorem runEvs_statusUpdate_iff (evs : List Ev) :
    ∀ (st : SystemState) (u : StatusUpdate),
      Event.statusUpdate u ∈ (runEvs st evs).2 →
      (u.agent_status = .OFFLINE ↔ u.connection_state = .DISCONNECTED) := by
  induction evs with
  | nil =>
      intro st u h
      cases h
  | cons e rest ih =>
      intro st u h
      rw [runEvs_cons_snd] at h
      rcases List.mem_append.mp h with h1 | h1
      · exact stepEv_statusUpdate_iff st e u h1
      · exact ih _ u h1

theorem getActiveNodes_iff (now : Nat) (store : List (String × NodeRec))
    (hinv : StoredStatusInv store) :
    ∀ v ∈ getActiveNodes now store,
      (v.agent_status = .OFFLINE ↔ v.connection_state = .DISCONNECTED) := by
  intro v hv
  rcases List.mem_map.mp hv with ⟨kv, hkv, heq⟩
  rw [← heq]
  dsimp only
  by_cases hc : now - kv.2.lastSeen < NODE_TIMEOUT_MS
  · simp only [if_pos hc]
    exact iff_of_false (hinv kv hkv) (fun h => ConnStatus.noConfusion h)
  · simp only [if_neg hc]

theorem getNodeData_iff (now : Nat) (store : List (String × NodeRec)) (nid : String)
    (hinv : StoredStatusInv store) :
    ∀ v, getNodeData now store nid = some v →
      (v.agent_status = .OFFLINE ↔ v.connection_state = .DISCONNECTED) := by
  intro v hv
  unfold getNodeData at hv
  cases hk : getKey store nid with
  | none =>
      rw [hk] at hv
      cases hv
  | some data =>
      rw [hk] at hv
      injection hv with hv
      rw [← hv]
      dsimp only
      have hmem := getKey_mem store nid data hk
      by_cases hc : now - data.lastSeen < NODE_TIMEOUT_MS
      · simp only [if_pos hc]
        exact iff_of_false (hinv (nid, data) hmem) (fun h => ConnStatus.noConfusion h)
      · simp only [if_neg hc]

/-- C8: in every state reachable from the empty store, the views returned by
getActiveNodes and getNodeData and the payloads of all emitted status events
satisfy agentStatus = OFFLINE iff connectionState = DISCONNECTED. -/
theorem C8_agent_status_connection_coupling :
    ∀ (evs : List Ev) (now : Nat) (nid : String),
      (∀ v ∈ getActiveNodes now (runEvs initialState evs).1.nodeStore,
        (v.agent_status = .OFFLINE ↔ v.connection_state = .DISCONNECTED)) ∧
      (∀ v, getNodeData now (runEvs initialState evs).1.nodeStore nid = some v →
        (v.agent_status = .OFFLINE ↔ v.connection_state = .DISCONNECTED)) ∧
      (∀ u, Event.statusUpdate u ∈ (runEvs initialState evs).2 →
        (u.agent_status = .OFFLINE ↔ u.connection_state = .DISCONNECTED)) := by
  intro evs now nid
  have hinv : StoredStatusInv (runEvs initialState evs).1.nodeStore :=
    runEvs_storedStatusInv evs initialState (fun kv hkv => absurd hkv (List.not_mem_nil _))
  exact ⟨getActiveNodes_iff now _ hinv, getNodeData_iff now _ nid hinv,
    fun u hu => runEvs_statusUpdate_iff evs initialState u hu⟩

/-- C8 witness: the coupling theorem applied after one accepted report for n1,
at the view returned by getActiveNodes, the view returned by getNodeData and
the emitted CONNECTED status event. -/
theorem C8_agent_status_connection_coupling_witness :
    (({ node_id := "n1", hostname := "n1", lastSeen := 0, timeSinceLastSeen := 0,
        status := .CONNECTED, connection_state := .CONNECTED, agent_status := .ACTIVE,
        agent_state := none, health_status := "NORMAL" } : NodeView).agent_status = .OFFLINE ↔
     ({ node_id := "n1", hostname := "n1", lastSeen := 0, timeSinceLastSeen := 0,
        status := .CONNECTED, connection_state := .CONNECTED, agent_status := .ACTIVE,
        agent_state := none, health_status := "NORMAL" } : NodeView).connection_state =
       .DISCONNECTED) ∧
    (({ node_id := "n1", status := .CONNECTED, connection_state := .CONNECTED,
        agent_status := .ACTIVE, lastSeen := 0 } : StatusUpdate).agent_status = .OFFLINE ↔
     ({ node_id := "n1", status := .CONNECTED, connection_state := .CONNECTED,
        agent_status := .ACTIVE, lastSeen := 0 } : StatusUpdate).connection_state =
       .DISCONNECTED) := by
  constructor
  · exact (C8_agent_status_connection_coupling [Ev.report 0 freshPayload normalAi] 0 "n1").1
      { node_id := "n1", hostname := "n1", lastSeen := 0, timeSinceLastSeen := 0,
        status := .CONNECTED, connection_state := .CONNECTED, agent_status := .ACTIVE,
        agent_state := none, health_status := "NORMAL" }
      (by decide)
  · exact (C8_agent_status_connection_coupling [Ev.report 0 freshPayload normalAi] 0 "n1").2.2
      { node_id := "n1", status := .CONNECTED, connection_state := .CONNECTED,
        agent_status := .ACTIVE, lastSeen := 0 }
      (by decide)

end AIOps
